import Mathlib

/-!
# ModalCamera: penetration prevention of the fixed camera mode

A shallow embedding of `UCameraMode_Fixed::PreventCameraPenetration`,
`UCameraMode_Fixed::UpdatePreventPenetration` and `UCameraMode_Fixed::UpdateView`
(`Source/ModalCamera/Private/CameraModes/CameraMode_Fixed.cpp`) and of the members of
the class they read and write (`Source/ModalCamera/Public/CameraModes/CameraMode_Fixed.h`).
Line numbers in the comments are those of the `.cpp` file.

Numbers.  Every `float` and `double` of the source is a `UEFloat`: a finite value, the
two infinities, or NaN.  Finite values are exact rationals, so rounding is not
modelled, and zero carries no sign.  The special values are modelled because the source
divides by the length of a ray that it has itself built with length zero.

Engine.  Functions of the engine and of the base class that the source calls (the scene
sweep, actor queries, `FVector::Size`, `FVector::GetSafeNormal2D`, the constant
`ZERO_ANIMWEIGHT_THRESH`, ...) are fields of the records `UWorld` and `UCameraHost`;
nothing is assumed about them beyond what a theorem states as a hypothesis.
`FMath::Min`, `FMath::Max` and `FMath::Clamp` are the generic templates of the engine,
written out; the older form of the templates (`A <= B`, `A >= B`, and a clamp by two
comparisons) has the same values for `Min`, for `Max` and for a clamp between 0 and 1,
on every argument, NaN included.

Left out.  The blocks under `ENABLE_DRAW_DEBUG` (debug drawing and the list
`DebugActorsHitDuringCameraPenetration`), which do not feed back into the computation.
-/

namespace ModalCamera

/-! ## Scalars -/

/-- Value of a C++ `float` or `double`: finite (exact), plus or minus infinity, or NaN. -/
inductive UEFloat where
  | fin (q : ℚ)
  | posInf
  | negInf
  | nan
  deriving DecidableEq

namespace UEFloat

/-- C++ `a < b`: false as soon as one side is NaN. -/
def lt : UEFloat → UEFloat → Bool
  | fin a, fin b => decide (a < b)
  | fin _, posInf => true
  | negInf, fin _ => true
  | negInf, posInf => true
  | _, _ => false

/-- C++ `a > b`. -/
def gt (a b : UEFloat) : Bool := lt b a

/-- C++ `a <= b`: false as soon as one side is NaN. -/
def le : UEFloat → UEFloat → Bool
  | fin a, fin b => decide (a ≤ b)
  | fin _, posInf => true
  | negInf, fin _ => true
  | negInf, posInf => true
  | posInf, posInf => true
  | negInf, negInf => true
  | _, _ => false

/-- Unary minus. -/
def neg : UEFloat → UEFloat
  | fin a => fin (-a)
  | posInf => negInf
  | negInf => posInf
  | nan => nan

/-- C++ `a + b`; opposite infinities give NaN. -/
def add : UEFloat → UEFloat → UEFloat
  | fin a, fin b => fin (a + b)
  | fin _, posInf => posInf
  | fin _, negInf => negInf
  | posInf, fin _ => posInf
  | posInf, posInf => posInf
  | negInf, fin _ => negInf
  | negInf, negInf => negInf
  | _, _ => nan

/-- C++ `a - b`. -/
def sub (a b : UEFloat) : UEFloat := add a (neg b)

/-- Sign of a product with an infinity whose sign is `s`; zero times infinity is NaN. -/
def mulInf (a : ℚ) (s : Bool) : UEFloat :=
  if a = 0 then nan else if (decide (0 < a)) = s then posInf else negInf

/-- C++ `a * b`. -/
def mul : UEFloat → UEFloat → UEFloat
  | fin a, fin b => fin (a * b)
  | fin a, posInf => mulInf a true
  | fin a, negInf => mulInf a false
  | posInf, fin b => mulInf b true
  | negInf, fin b => mulInf b false
  | posInf, posInf => posInf
  | negInf, negInf => posInf
  | posInf, negInf => negInf
  | negInf, posInf => negInf
  | _, _ => nan

/-- C++ `a / b`.  A zero divisor is taken as positive zero (the only divisor in the source
is a vector length): a positive dividend gives plus infinity, a negative one minus
infinity, and zero over zero is NaN. -/
def div : UEFloat → UEFloat → UEFloat
  | fin a, fin b =>
      if b = 0 then (if a = 0 then nan else if 0 < a then posInf else negInf)
      else fin (a / b)
  | fin _, posInf => fin 0
  | fin _, negInf => fin 0
  | posInf, fin b => if 0 ≤ b then posInf else negInf
  | negInf, fin b => if 0 ≤ b then negInf else posInf
  | _, _ => nan

/-- The value is an ordinary number. -/
def IsFinite : UEFloat → Bool
  | fin _ => true
  | _ => false

end UEFloat

/-- Engine template `FMath::Min`: `(A < B) ? A : B`. -/
def FMath.Min (A B : UEFloat) : UEFloat := if A.lt B then A else B

/-- Engine template `FMath::Max`: `(B < A) ? A : B`. -/
def FMath.Max (A B : UEFloat) : UEFloat := if B.lt A then A else B

/-- Engine template `FMath::Clamp`: `Max(Min(X, MaxValue), MinValue)`. -/
def FMath.Clamp (X MinValue MaxValue : UEFloat) : UEFloat :=
  FMath.Max (FMath.Min X MaxValue) MinValue

/-! ## Vectors -/

/-- Engine type `FVector`. -/
structure FVector where
  X : UEFloat
  Y : UEFloat
  Z : UEFloat
  deriving DecidableEq

namespace FVector

/-- Component-wise `A + B`. -/
def add (A B : FVector) : FVector := ⟨A.X.add B.X, A.Y.add B.Y, A.Z.add B.Z⟩

/-- Component-wise `A - B`. -/
def sub (A B : FVector) : FVector := ⟨A.X.sub B.X, A.Y.sub B.Y, A.Z.sub B.Z⟩

/-- Vector times scalar, `V * Scale`. -/
def scale (V : FVector) (Scale : UEFloat) : FVector :=
  ⟨V.X.mul Scale, V.Y.mul Scale, V.Z.mul Scale⟩

/-- Engine `FVector::DotProduct`. -/
def DotProduct (A B : FVector) : UEFloat :=
  ((A.X.mul B.X).add (A.Y.mul B.Y)).add (A.Z.mul B.Z)

/-- All three coordinates are ordinary numbers. -/
def IsFinite (V : FVector) : Bool := V.X.IsFinite && V.Y.IsFinite && V.Z.IsFinite

/-- Vector with the three given rational coordinates. -/
def ofRat (x y z : ℚ) : FVector := ⟨.fin x, .fin y, .fin z⟩

end FVector

/-! ## Actors, hits and the engine -/

/-- Actor pointer `AActor*` (non-null): actors are told apart by a number. -/
abbrev AActor := ℕ

/-- Engine type `FHitResult`, the fields the source reads. -/
structure FHitResult where
  /-- `Hit.GetActor()`; `none` is the null pointer. -/
  Actor : Option AActor
  Location : FVector
  Time : UEFloat
  deriving DecidableEq

/-- What `PreventCameraPenetration` asks of the engine. -/
structure UWorld where
  /-- `UWorld::SweepSingleByChannel(Hit, Start, End, ...)` with the ignored actors of
  `SphereParams`: the returned flag and the hit.  The first argument is the ordinal of
  the query within the call, so that a scene may answer the same query differently
  each time; a scene that does not look at it is the deterministic case. -/
  SweepSingleByChannel : ℕ → FVector → FVector → List AActor → Bool × FHitResult
  /-- `AActor::ActorHasTag`. -/
  ActorHasTag : AActor → String → Bool
  /-- `AActor::IsA<ACameraBlockingVolume>()`. -/
  IsCameraBlockingVolume : AActor → Bool
  /-- `AActor::GetActorForwardVector`. -/
  GetActorForwardVector : AActor → FVector
  /-- `AActor::GetActorLocation`. -/
  GetActorLocation : AActor → FVector
  /-- `FVector::Size`. -/
  Size : FVector → UEFloat
  /-- `FVector::GetSafeNormal2D`. -/
  GetSafeNormal2D : FVector → FVector
  /-- Engine constant `ZERO_ANIMWEIGHT_THRESH`. -/
  ZERO_ANIMWEIGHT_THRESH : UEFloat

/-- `CameraMode_Fixed_Statics::NAME_IgnoreCameraCollision`. -/
def NAME_IgnoreCameraCollision : String := "IgnoreCameraCollision"

/-! ## PreventCameraPenetration -/

/-- Locals of `PreventCameraPenetration` that the ray loop updates. -/
structure RayLoopState where
  /-- Ignored actors of `SphereParams`. -/
  SphereParams : List AActor
  DistBlockedPctThisFrame : UEFloat
  HardBlockedPct : UEFloat
  SoftBlockedPct : UEFloat
  deriving DecidableEq

/-- Lines 205-209: `DotHitDirection`, the dot product of the view target's ground-plane
forward direction with the ground-plane direction from the view target to the hit. -/
def DotHitDirection (W : UWorld) (ViewTarget : AActor) (Hit : FHitResult) : UEFloat :=
  let ViewTargetForwardXY := W.GetSafeNormal2D (W.GetActorForwardVector ViewTarget)
  let ViewTargetLocation := W.GetActorLocation ViewTarget
  let HitOffset := Hit.Location.sub ViewTargetLocation
  let HitDirectionXY := W.GetSafeNormal2D HitOffset
  FVector.DotProduct ViewTargetForwardXY HitDirectionXY

/-- Lines 194-221: the value of `bIgnoreHit` when line 223 tests it. -/
def bIgnoreHit (W : UWorld) (ViewTarget HitActor : AActor) (Hit : FHitResult) : Bool :=
  if W.ActorHasTag HitActor NAME_IgnoreCameraCollision then true
  else if W.IsCameraBlockingVolume HitActor then
    (DotHitDirection W ViewTarget Hit).gt (.fin 0)
  else false

/-- Line 229: `NewBlockPct`, recomputed from the push-out distance.  The two assignments
of lines 225-226 are overwritten before they are read. -/
def NewBlockPct (W : UWorld) (CollisionPushOutDistance : UEFloat)
    (SafeLoc RayTarget : FVector) (Hit : FHitResult) : UEFloat :=
  (((W.Size (Hit.Location.sub SafeLoc)).sub CollisionPushOutDistance)).div
    (W.Size (RayTarget.sub SafeLoc))

/-- Lines 168-236: the sweep of ray `RayIdx` and the handling of its hit. -/
def sweepRay (W : UWorld) (CollisionPushOutDistance : UEFloat) (ViewTarget : AActor)
    (SafeLoc : FVector) (St : RayLoopState) (RayIdx : ℕ) : RayLoopState :=
  let RayTarget := SafeLoc
  let Sweep := W.SweepSingleByChannel RayIdx SafeLoc RayTarget St.SphereParams
  match Sweep.1, Sweep.2.Actor with
  | true, some HitActor =>
    if bIgnoreHit W ViewTarget HitActor Sweep.2 then
      -- both ignoring branches call `SphereParams.AddIgnoredActor(HitActor)`
      ⟨St.SphereParams ++ [HitActor], St.DistBlockedPctThisFrame,
        St.HardBlockedPct, St.SoftBlockedPct⟩
    else
      ⟨St.SphereParams,
        FMath.Min (NewBlockPct W CollisionPushOutDistance SafeLoc RayTarget Sweep.2)
          St.DistBlockedPctThisFrame,
        St.HardBlockedPct, St.SoftBlockedPct⟩
  | _, _ => St

/-- Lines 238-247: ray 0 sets `HardBlockedPct`, every other ray `SoftBlockedPct`. -/
def recordRay (St : RayLoopState) (RayIdx : ℕ) : RayLoopState :=
  if RayIdx = 0 then
    ⟨St.SphereParams, St.DistBlockedPctThisFrame, St.DistBlockedPctThisFrame,
      St.SoftBlockedPct⟩
  else
    ⟨St.SphereParams, St.DistBlockedPctThisFrame, St.HardBlockedPct,
      St.DistBlockedPctThisFrame⟩

/-- Lines 166-248: one pass of the ray loop, for ray `RayIdx`. -/
def rayStep (W : UWorld) (CollisionPushOutDistance : UEFloat) (ViewTarget : AActor)
    (SafeLoc : FVector) (St : RayLoopState) (RayIdx : ℕ) : RayLoopState :=
  recordRay (sweepRay W CollisionPushOutDistance ViewTarget SafeLoc St RayIdx) RayIdx

/-- Lines 148-162: the locals before the first ray. -/
def rayLoopInit (ViewTarget : AActor) (DistBlockedPct : UEFloat) : RayLoopState :=
  ⟨[ViewTarget], .fin 1, DistBlockedPct, DistBlockedPct⟩

/-- The locals after rays `0 .. n-1`. -/
def rayLoopUpTo (W : UWorld) (CollisionPushOutDistance : UEFloat) (ViewTarget : AActor)
    (SafeLoc : FVector) (DistBlockedPct : UEFloat) (n : ℕ) : RayLoopState :=
  (List.range n).foldl (rayStep W CollisionPushOutDistance ViewTarget SafeLoc)
    (rayLoopInit ViewTarget DistBlockedPct)

/-- Line 159: `NumRaysToShoot`. -/
def NumRaysToShoot (bSingleRayOnly : Bool) : ℕ := if bSingleRayOnly then 1 else 4

/-- Lines 148-248: the locals when the ray loop has ended. -/
def rayLoop (W : UWorld) (CollisionPushOutDistance : UEFloat) (ViewTarget : AActor)
    (SafeLoc : FVector) (DistBlockedPct : UEFloat) (bSingleRayOnly : Bool) : RayLoopState :=
  rayLoopUpTo W CollisionPushOutDistance ViewTarget SafeLoc DistBlockedPct
    (NumRaysToShoot bSingleRayOnly)

/-- Lines 250-268: the stored fraction before it is clamped. -/
def interpolate (bResetInterpolation : Bool) (DistBlockedPct : UEFloat)
    (St : RayLoopState) : UEFloat :=
  if bResetInterpolation then St.DistBlockedPctThisFrame
  else if DistBlockedPct.lt St.DistBlockedPctThisFrame then St.DistBlockedPctThisFrame
  else if DistBlockedPct.gt St.HardBlockedPct then St.HardBlockedPct
  else if DistBlockedPct.gt St.SoftBlockedPct then St.SoftBlockedPct
  else DistBlockedPct

/-- The two reference parameters of `PreventCameraPenetration` on return. -/
structure PenetrationResult where
  CameraLoc : FVector
  DistBlockedPct : UEFloat
  deriving DecidableEq

/-- Lines 270-274: clamp the stored fraction and place the camera. -/
def finish (W : UWorld) (SafeLoc CameraLoc : FVector) (DistBlockedPct : UEFloat) :
    PenetrationResult :=
  let Clamped := FMath.Clamp DistBlockedPct (.fin 0) (.fin 1)
  if Clamped.lt ((UEFloat.fin 1).sub W.ZERO_ANIMWEIGHT_THRESH) then
    ⟨SafeLoc.add ((CameraLoc.sub SafeLoc).scale Clamped), Clamped⟩
  else
    ⟨CameraLoc, Clamped⟩

/-- `UCameraMode_Fixed::PreventCameraPenetration`.  `CollisionPushOutDistance` and
`bResetInterpolation` are the members of the camera mode that the function reads;
`DeltaTime` is not read and is left out. -/
def PreventCameraPenetration (W : UWorld) (CollisionPushOutDistance : UEFloat)
    (bResetInterpolation : Bool) (ViewTarget : AActor) (SafeLoc CameraLoc : FVector)
    (DistBlockedPct : UEFloat) (bSingleRayOnly : Bool) : PenetrationResult :=
  let St := rayLoop W CollisionPushOutDistance ViewTarget SafeLoc DistBlockedPct
    bSingleRayOnly
  finish W SafeLoc CameraLoc (interpolate bResetInterpolation DistBlockedPct St)

/-- The answer that the sweep of ray `RayIdx` gets in the loop. -/
def raySweep (W : UWorld) (CollisionPushOutDistance : UEFloat) (ViewTarget : AActor)
    (SafeLoc : FVector) (DistBlockedPct : UEFloat) (RayIdx : ℕ) : Bool × FHitResult :=
  W.SweepSingleByChannel RayIdx SafeLoc SafeLoc
    (rayLoopUpTo W CollisionPushOutDistance ViewTarget SafeLoc DistBlockedPct
      RayIdx).SphereParams

/-- The stored fraction is a number from 0 to 1. -/
def InUnitRange (x : UEFloat) : Prop :=
  (UEFloat.fin 0).le x = true ∧ x.le (.fin 1) = true

/-! ## The camera mode and its frame update -/

/-- Engine type `FRotator`. -/
structure FRotator where
  Pitch : UEFloat
  Yaw : UEFloat
  Roll : UEFloat
  deriving DecidableEq

/-- The member `View` of the base class, the fields that `UpdateView` writes. -/
structure FCameraModeView where
  Location : FVector
  Rotation : FRotator
  ControlRotation : FRotator
  FieldOfView : UEFloat
  deriving DecidableEq

/-- Members of `UCameraMode_Fixed`, with the members of its base class `UModalCameraMode`
(declared outside the two source files) that the code reads or writes. -/
structure UCameraMode_Fixed where
  FixedLocation : FVector
  FixedRotation : FRotator
  bPreventPenetration : Bool
  CollisionPushOutDistance : UEFloat
  ReportPenetrationPercent : UEFloat
  AimLineToDesiredPosBlockedPct : UEFloat
  /-- Base class member. -/
  bResetInterpolation : Bool
  /-- Base class member. -/
  ViewPitchMin : UEFloat
  /-- Base class member. -/
  ViewPitchMax : UEFloat
  /-- Base class member. -/
  FieldOfView : UEFloat
  /-- Base class member. -/
  View : FCameraModeView
  deriving DecidableEq

/-- Header lines 51-58 and constructor lines 22-23: the members the class itself
initialises. -/
def IsConstructed (M : UCameraMode_Fixed) : Prop :=
  M.bPreventPenetration = true ∧ M.CollisionPushOutDistance = .fin 2 ∧
    M.ReportPenetrationPercent = .fin 0 ∧ M.AimLineToDesiredPosBlockedPct = .fin 0

/-- Controller pointer `AController*` (non-null). -/
abbrev AController := ℕ

/-- Component pointer `UPrimitiveComponent*` (non-null). -/
abbrev UPrimitiveComponent := ℕ

/-- The three collaborators of `AssistArray`, in its order. -/
inductive ECameraAssist where
  | TargetControllerAssist
  | TargetActorAssist
  | PPActorAssist
  deriving DecidableEq

/-- What `UpdateView` and `UpdatePreventPenetration` ask of the engine and of the base
class, besides the queries of `UWorld`. -/
structure UCameraHost where
  /-- `UModalCameraMode::GetTargetActor()`; `none` is the null pointer. -/
  GetTargetActor : Option AActor
  /-- `Cast<APawn>(Actor)` is non-null. -/
  IsPawn : AActor → Bool
  /-- `APawn::GetController()`; `none` is the null pointer. -/
  GetController : AActor → Option AController
  /-- `Cast<ICameraAssistInterface>(Controller)` is non-null. -/
  ControllerIsAssist : AController → Bool
  /-- `Cast<ICameraAssistInterface>(Actor)` is non-null. -/
  ActorIsAssist : AActor → Bool
  /-- `ICameraAssistInterface::GetCameraPreventPenetrationTarget()`: an optional actor
  pointer, which may be set to the null pointer. -/
  GetCameraPreventPenetrationTarget : AActor → Option (Option AActor)
  /-- `Cast<UPrimitiveComponent>(Actor->GetRootComponent())`; `none` is the null
  pointer. -/
  GetRootPrimitiveComponent : AActor → Option UPrimitiveComponent
  /-- `AActor::GetSimpleCollisionHalfHeight`. -/
  GetSimpleCollisionHalfHeight : AActor → UEFloat
  /-- `FRotator::Vector`. -/
  RotatorVector : FRotator → FVector
  /-- `FMath::PointDistToLine(Point, Direction, Origin, OutClosestPoint)`: the value it
  leaves in `OutClosestPoint`. -/
  PointDistToLine : FVector → FVector → FVector → FVector
  /-- `UPrimitiveComponent::GetSquaredDistanceToCollision(Point, OutSquaredDistance,
  OutClosestPointOnCollision)`: the value it leaves in its third argument, a non-const
  reference, given the point and the value the argument held at the call. -/
  GetSquaredDistanceToCollision : UPrimitiveComponent → FVector → FVector → FVector
  /-- `FMath::ClampAngle`. -/
  ClampAngle : UEFloat → UEFloat → UEFloat → UEFloat

/-- Lines 126-138: the collaborators on which `OnCameraPenetratingTarget` is called, in
call order, given which entries of `AssistArray` are non-null. -/
def notifyAssists (bReport TargetControllerAssist TargetActorAssist PPActorAssist : Bool) :
    List ECameraAssist :=
  if bReport then
    (if TargetControllerAssist then [ECameraAssist.TargetControllerAssist] else []) ++
    (if TargetActorAssist then [ECameraAssist.TargetActorAssist] else []) ++
    (if PPActorAssist then [ECameraAssist.PPActorAssist] else [])
  else []

/-- `UCameraMode_Fixed::UpdatePreventPenetration`: the camera mode after the call and the
collaborators notified.  `none` is the call that dereferences a null `PPActor` at line
106. -/
def UpdatePreventPenetration (W : UWorld) (H : UCameraHost) (M : UCameraMode_Fixed) :
    Option (UCameraMode_Fixed × List ECameraAssist) :=
  if !M.bPreventPenetration then some (M, [])
  else
    let TargetActor := H.GetTargetActor
    let TargetController : Option AController :=
      match TargetActor with
      | some A => if H.IsPawn A then H.GetController A else none
      | none => none
    let TargetControllerAssist : Bool :=
      match TargetController with
      | some C => H.ControllerIsAssist C
      | none => false
    let TargetActorAssist : Bool :=
      match TargetActor with
      | some A => H.ActorIsAssist A
      | none => false
    let OptionalPPTarget : Option (Option AActor) :=
      match TargetActor with
      | some A => if H.ActorIsAssist A then H.GetCameraPreventPenetrationTarget A else none
      | none => none
    let PPActor : Option AActor :=
      match OptionalPPTarget with
      | some Value => Value
      | none => TargetActor
    let PPActorAssist : Bool :=
      match OptionalPPTarget, PPActor with
      | some _, some A => H.ActorIsAssist A
      | _, _ => false
    match PPActor with
    | none => none
    | some PP =>
      match H.GetRootPrimitiveComponent PP with
      | none => some (M, [])
      | some PPActorRootComponent =>
        let SafeLocation := W.GetActorLocation PP
        let ClosestPointOnLineToCapsuleCenter :=
          H.PointDistToLine SafeLocation (H.RotatorVector M.View.Rotation) M.View.Location
        let PushInDistance := M.CollisionPushOutDistance
        let MaxHalfHeight := (H.GetSimpleCollisionHalfHeight PP).sub PushInDistance
        let SafeLocation : FVector :=
          ⟨SafeLocation.X, SafeLocation.Y,
            FMath.Clamp ClosestPointOnLineToCapsuleCenter.Z
              (SafeLocation.Z.sub MaxHalfHeight) (SafeLocation.Z.add MaxHalfHeight)⟩
        let SafeLocation :=
          H.GetSquaredDistanceToCollision PPActorRootComponent
            ClosestPointOnLineToCapsuleCenter SafeLocation
        let R := PreventCameraPenetration W M.CollisionPushOutDistance
          M.bResetInterpolation PP SafeLocation M.View.Location
          M.AimLineToDesiredPosBlockedPct true
        let View : FCameraModeView :=
          ⟨R.CameraLoc, M.View.Rotation, M.View.ControlRotation, M.View.FieldOfView⟩
        some (⟨M.FixedLocation, M.FixedRotation, M.bPreventPenetration,
            M.CollisionPushOutDistance, M.ReportPenetrationPercent, R.DistBlockedPct,
            M.bResetInterpolation, M.ViewPitchMin, M.ViewPitchMax, M.FieldOfView, View⟩,
          notifyAssists (R.DistBlockedPct.lt M.ReportPenetrationPercent)
            TargetControllerAssist TargetActorAssist PPActorAssist)

/-- `UCameraMode_Fixed::UpdateView`. -/
def UpdateView (W : UWorld) (H : UCameraHost) (M : UCameraMode_Fixed) :
    Option (UCameraMode_Fixed × List ECameraAssist) :=
  let PivotLocation := M.FixedLocation
  let PivotRotation : FRotator :=
    ⟨H.ClampAngle M.FixedRotation.Pitch M.ViewPitchMin M.ViewPitchMax,
      M.FixedRotation.Yaw, M.FixedRotation.Roll⟩
  let View : FCameraModeView := ⟨PivotLocation, PivotRotation, PivotRotation, M.FieldOfView⟩
  UpdatePreventPenetration W H
    ⟨M.FixedLocation, M.FixedRotation, M.bPreventPenetration, M.CollisionPushOutDistance,
      M.ReportPenetrationPercent, M.AimLineToDesiredPosBlockedPct, M.bResetInterpolation,
      M.ViewPitchMin, M.ViewPitchMax, M.FieldOfView, View⟩

/-- States of a camera mode that a run of the program can reach: the constructed object,
then any number of frame updates, of direct calls of `PreventCameraPenetration` on the
stored fraction (the function is a protected member), and of writes to the other
members (property edits, `OnActivation`, the base class), which leave
`AimLineToDesiredPosBlockedPct` alone. -/
inductive Reachable : UCameraMode_Fixed → Prop where
  | constructed (M : UCameraMode_Fixed) (h : IsConstructed M) : Reachable M
  | otherWrite (M N : UCameraMode_Fixed) (hM : Reachable M)
      (h : N.AimLineToDesiredPosBlockedPct = M.AimLineToDesiredPosBlockedPct) : Reachable N
  | frame (W : UWorld) (H : UCameraHost) (M N : UCameraMode_Fixed)
      (Notified : List ECameraAssist) (hM : Reachable M)
      (h : UpdateView W H M = some (N, Notified)) : Reachable N
  | call (W : UWorld) (M N : UCameraMode_Fixed) (ViewTarget : AActor)
      (SafeLoc CameraLoc : FVector) (bSingleRayOnly : Bool) (hM : Reachable M)
      (h : N.AimLineToDesiredPosBlockedPct =
        (PreventCameraPenetration W M.CollisionPushOutDistance M.bResetInterpolation
          ViewTarget SafeLoc CameraLoc M.AimLineToDesiredPosBlockedPct
          bSingleRayOnly).DistBlockedPct) : Reachable N

/-! ## The frame update, part by part

The locals of `UpdatePreventPenetration` as functions of what they are computed from, so
that statements can name them. -/

/-- Lines 96-97: `TargetController`; `none` is the null pointer. -/
def TargetControllerOf (H : UCameraHost) : Option AController :=
  match H.GetTargetActor with
  | some A => if H.IsPawn A then H.GetController A else none
  | none => none

/-- Line 98: `TargetControllerAssist` is non-null. -/
def TargetControllerAssistOf (H : UCameraHost) : Bool :=
  match TargetControllerOf H with
  | some C => H.ControllerIsAssist C
  | none => false

/-- Line 100: `TargetActorAssist` is non-null. -/
def TargetActorAssistOf (H : UCameraHost) : Bool :=
  match H.GetTargetActor with
  | some A => H.ActorIsAssist A
  | none => false

/-- Line 102: `OptionalPPTarget`; the outer `none` is the optional that is not set. -/
def OptionalPPTargetOf (H : UCameraHost) : Option (Option AActor) :=
  match H.GetTargetActor with
  | some A => if H.ActorIsAssist A then H.GetCameraPreventPenetrationTarget A else none
  | none => none

/-- Line 103: `PPActor`, the anchor actor; `none` is the null pointer. -/
def PPActorOf (H : UCameraHost) : Option AActor :=
  match OptionalPPTargetOf H with
  | some Value => Value
  | none => H.GetTargetActor

/-- Line 104: `PPActorAssist` is non-null. -/
def PPActorAssistOf (H : UCameraHost) : Bool :=
  match OptionalPPTargetOf H, PPActorOf H with
  | some _, some A => H.ActorIsAssist A
  | _, _ => false

/-- Line 126: the entry of `AssistArray` for a collaborator is non-null. -/
def AssistArrayHas (H : UCameraHost) : ECameraAssist → Bool
  | .TargetControllerAssist => TargetControllerAssistOf H
  | .TargetActorAssist => TargetActorAssistOf H
  | .PPActorAssist => PPActorAssistOf H

/-- Line 113: `ClosestPointOnLineToCapsuleCenter` for the anchor actor `PP`. -/
def ClosestPointOnLineToCapsuleCenterOf (W : UWorld) (H : UCameraHost)
    (M : UCameraMode_Fixed) (PP : AActor) : FVector :=
  H.PointDistToLine (W.GetActorLocation PP) (H.RotatorVector M.View.Rotation)
    M.View.Location

/-- Lines 112-118: `SafeLocation` when the side query of line 121 is called: the location
of the anchor actor with its Z clamped around the Z of the closest point on the aim
line. -/
def ClampedSafeLocation (W : UWorld) (H : UCameraHost) (M : UCameraMode_Fixed)
    (PP : AActor) : FVector :=
  ⟨(W.GetActorLocation PP).X, (W.GetActorLocation PP).Y,
    FMath.Clamp (ClosestPointOnLineToCapsuleCenterOf W H M PP).Z
      ((W.GetActorLocation PP).Z.sub
        ((H.GetSimpleCollisionHalfHeight PP).sub M.CollisionPushOutDistance))
      ((W.GetActorLocation PP).Z.add
        ((H.GetSimpleCollisionHalfHeight PP).sub M.CollisionPushOutDistance))⟩

/-- Lines 112-121: `SafeLocation` when `PreventCameraPenetration` is called at line 124. -/
def SafeLocationOf (W : UWorld) (H : UCameraHost) (M : UCameraMode_Fixed) (PP : AActor)
    (PPActorRootComponent : UPrimitiveComponent) : FVector :=
  H.GetSquaredDistanceToCollision PPActorRootComponent
    (ClosestPointOnLineToCapsuleCenterOf W H M PP) (ClampedSafeLocation W H M PP)

/-- Line 124: what the call of `PreventCameraPenetration` leaves in `View.Location` and
`AimLineToDesiredPosBlockedPct`. -/
def detectorResult (W : UWorld) (H : UCameraHost) (M : UCameraMode_Fixed) (PP : AActor)
    (PPActorRootComponent : UPrimitiveComponent) : PenetrationResult :=
  PreventCameraPenetration W M.CollisionPushOutDistance M.bResetInterpolation PP
    (SafeLocationOf W H M PP PPActorRootComponent) M.View.Location
    M.AimLineToDesiredPosBlockedPct true

/-- The camera mode with `View.Location` and `AimLineToDesiredPosBlockedPct` replaced by
the two outputs of `PreventCameraPenetration`. -/
def withPenetrationResult (M : UCameraMode_Fixed) (R : PenetrationResult) :
    UCameraMode_Fixed :=
  ⟨M.FixedLocation, M.FixedRotation, M.bPreventPenetration, M.CollisionPushOutDistance,
    M.ReportPenetrationPercent, R.DistBlockedPct, M.bResetInterpolation, M.ViewPitchMin,
    M.ViewPitchMax, M.FieldOfView,
    ⟨R.CameraLoc, M.View.Rotation, M.View.ControlRotation, M.View.FieldOfView⟩⟩

/-- A run of frames: `UpdateView` once per frame, each frame with its own scene and host.
The result is the camera mode after the last frame, `none` when a frame dereferences the
null anchor and ends the run, with the collaborators notified during the run, in call
order. -/
def UpdateFrames : List (UWorld × UCameraHost) → UCameraMode_Fixed →
    Option UCameraMode_Fixed × List ECameraAssist
  | [], M => (some M, [])
  | (W, H) :: Rest, M =>
    match UpdateView W H M with
    | none => (none, [])
    | some (N, Notified) =>
      ((UpdateFrames Rest N).1, Notified ++ (UpdateFrames Rest N).2)

/-- The actor that ray `RayIdx` adds to the ignored actors of `SphereParams`: the actor of
its hit when lines 196-214 ignore the hit, none when the hit is blocking or there is no
hit. -/
def ignoredActorOf (W : UWorld) (CollisionPushOutDistance : UEFloat) (ViewTarget : AActor)
    (SafeLoc : FVector) (DistBlockedPct : UEFloat) (RayIdx : ℕ) : Option AActor :=
  match (raySweep W CollisionPushOutDistance ViewTarget SafeLoc DistBlockedPct RayIdx).1,
    (raySweep W CollisionPushOutDistance ViewTarget SafeLoc DistBlockedPct RayIdx).2.Actor with
  | true, some HitActor =>
    if bIgnoreHit W ViewTarget HitActor
        (raySweep W CollisionPushOutDistance ViewTarget SafeLoc DistBlockedPct RayIdx).2 then
      some HitActor
    else none
  | _, _ => none

/-- The scene answers identical sweeps identically: the answer does not depend on the
ordinal of the query.  Within one call the source sweeps the same segment every time
(line 181), so two of its sweeps differ at most in the ignored actors. -/
def AnswersAlike (W : UWorld) : Prop :=
  ∀ (i j : ℕ) (Start End : FVector) (Ignored : List AActor),
    W.SweepSingleByChannel i Start End Ignored = W.SweepSingleByChannel j Start End Ignored

/-- The scene honours the ignored actors of `SphereParams`: no sweep reports a hit on an
actor that it was told to ignore. -/
def HonoursIgnoredActors (W : UWorld) : Prop :=
  ∀ (i : ℕ) (Start End : FVector) (Ignored : List AActor) (A : AActor),
    (W.SweepSingleByChannel i Start End Ignored).1 = true →
    (W.SweepSingleByChannel i Start End Ignored).2.Actor = some A → A ∉ Ignored

/-- The actor of an ignored hit, in the words of the specification rather than of the
code: the sweep reports a hit on an actor, and the actor carries the tag
`IgnoreCameraCollision` or is a camera blocking volume for which the dot product of the
view target's ground-plane forward direction with the ground-plane direction to the hit
is strictly positive.  None for every other answer of a sweep.  `ignoredActorOf` is its
counterpart read off the code. -/
def specIgnoredHitActor (W : UWorld) (ViewTarget : AActor) (Sweep : Bool × FHitResult) :
    Option AActor :=
  match Sweep.1, Sweep.2.Actor with
  | true, some HitActor =>
    if W.ActorHasTag HitActor NAME_IgnoreCameraCollision = true ∨
        (W.IsCameraBlockingVolume HitActor = true ∧
          (DotHitDirection W ViewTarget Sweep.2).gt (.fin 0) = true) then
      some HitActor
    else none
  | _, _ => none

/-! ## Concrete scenes

Small scenes on which the definitions above are evaluated.  Their vectors all lie on the
X axis, where the two functions below are the engine's `Size` and `GetSafeNormal2D`. -/

/-- Sign of a rational: 1, 0 or -1. -/
def axisSign (x : ℚ) : ℚ := if 0 < x then 1 else if x < 0 then -1 else 0

/-- Length of a vector on a coordinate axis: the sum of the absolute coordinates. -/
def axisSize : FVector → UEFloat
  | ⟨.fin x, .fin y, .fin z⟩ => .fin (|x| + |y| + |z|)
  | _ => .nan

/-- Ground-plane direction of a vector whose ground-plane part lies on a coordinate
axis. -/
def axisNormal2D : FVector → FVector
  | ⟨.fin x, .fin y, _⟩ => ⟨.fin (axisSign x), .fin (axisSign y), .fin 0⟩
  | _ => ⟨.nan, .nan, .fin 0⟩

/-- A sweep that reports no hit. -/
def noHit : Bool × FHitResult := (false, ⟨none, FVector.ofRat 0 0 0, .fin 1⟩)

/-- A sweep that reports a hit on actor `A` at the point `(x, 0, 0)`. -/
def hitAt (A : AActor) (x : ℚ) : Bool × FHitResult :=
  (true, ⟨some A, FVector.ofRat x 0 0, .fin 0⟩)

/-- Scene in which the sweep of ray `k` reports `Sweeps k`, the actors of `Tagged` carry
the tag `IgnoreCameraCollision`, the actors of `Volumes` are camera blocking volumes,
and every actor stands at the origin facing along the X axis. -/
def sceneWorld (Sweeps : ℕ → Bool × FHitResult) (Tagged Volumes : List AActor) : UWorld :=
  ⟨fun RayIdx _ _ _ => Sweeps RayIdx,
    fun A Tag => decide (A ∈ Tagged) && decide (Tag = NAME_IgnoreCameraCollision),
    fun A => decide (A ∈ Volumes),
    fun _ => FVector.ofRat 1 0 0,
    fun _ => FVector.ofRat 0 0 0,
    axisSize,
    axisNormal2D,
    .fin (1 / 100000)⟩

/-- Nothing in the way. -/
def emptyScene : UWorld := sceneWorld (fun _ => noHit) [] []

/-- A wall (actor 5) one unit from the origin, hit by every ray. -/
def nearWallScene : UWorld := sceneWorld (fun _ => hitAt 5 1) [] []

/-- A wall (actor 5) five units from the origin, hit by every ray. -/
def farWallScene : UWorld := sceneWorld (fun _ => hitAt 5 5) [] []

/-- A camera blocking volume (actor 9) hit at `(x, 0, 0)` by every ray. -/
def volumeScene (x : ℚ) : UWorld := sceneWorld (fun _ => hitAt 9 x) [] [9]

/-- The origin. -/
def originLoc : FVector := FVector.ofRat 0 0 0

/-- A desired camera location ten units behind the origin. -/
def desiredLoc : FVector := FVector.ofRat (-10) 0 0

/-- A camera blocking volume (actor 9) that carries the tag `IgnoreCameraCollision`, hit
one unit behind the view target by every ray. -/
def taggedVolumeScene : UWorld := sceneWorld (fun _ => hitAt 9 (-1)) [9] [9]

/-- A wall (actor 5) hit at the point `(0, 0, 21)` by every ray. -/
def highWallScene : UWorld :=
  sceneWorld (fun _ => (true, ⟨some 5, FVector.ofRat 0 0 21, .fin 0⟩)) [] []

/-- A side query that leaves its third argument as it was. -/
def queryKeeps : UPrimitiveComponent → FVector → FVector → FVector :=
  fun _ _ SafeLocation => SafeLocation

/-- A side query that leaves the queried point in its third argument. -/
def queryWritesPoint : UPrimitiveComponent → FVector → FVector → FVector :=
  fun _ Point _ => Point

/-- Host with the given target actor and side query.  The target is a pawn whose
controller (2) and which itself can be notified; it nominates actor 3, which can be
notified too, as the anchor; every actor has the primitive root component 7 and a
collision half height of 10; the view looks along the X axis, where the closest point on
the aim line to a point takes X from the point and Y, Z from the line's origin. -/
def demoHost (Target : Option AActor)
    (Query : UPrimitiveComponent → FVector → FVector → FVector) : UCameraHost :=
  ⟨Target,
    fun _ => true,
    fun _ => some 2,
    fun _ => true,
    fun _ => true,
    fun _ => some (some 3),
    fun _ => some 7,
    fun _ => .fin 10,
    fun _ => FVector.ofRat 1 0 0,
    fun Point _ Origin => ⟨Point.X, Origin.Y, Origin.Z⟩,
    Query,
    fun Angle _ _ => Angle⟩

/-- A rotation along the X axis. -/
def levelRotation : FRotator := ⟨.fin 0, .fin 0, .fin 0⟩

/-- A camera mode as constructed, with the view at `ViewLocation` and the given stored
fraction and report threshold. -/
def demoMode (ViewLocation : FVector) (Stored Report : UEFloat) : UCameraMode_Fixed :=
  ⟨ViewLocation, levelRotation, true, .fin 2, Report, Stored, false, .fin (-89), .fin 89,
    .fin 80, ⟨ViewLocation, levelRotation, levelRotation, .fin 80⟩⟩

/-- A view location ten units behind and twenty above the origin. -/
def highViewLoc : FVector := FVector.ofRat (-10) 0 20

/-- A camera blocking volume (actor 9) in front of the view target and a wall (actor 5):
every sweep reports the volume one unit in front unless the volume is ignored, then the
wall one unit away unless the wall is ignored too, then nothing.  The answer depends on
the ignored actors only. -/
def layeredScene : UWorld :=
  ⟨fun _ _ _ Ignored =>
      if 9 ∈ Ignored then (if 5 ∈ Ignored then noHit else hitAt 5 1) else hitAt 9 1,
    fun _ _ => false,
    fun A => decide (A = 9),
    fun _ => FVector.ofRat 1 0 0,
    fun _ => FVector.ofRat 0 0 0,
    axisSize,
    axisNormal2D,
    .fin (1 / 100000)⟩

/-! ## Lemmas on scalars -/

theorem UEFloat.lt_negInf (x : UEFloat) : x.lt .negInf = false := by
  cases x <;> rfl

theorem UEFloat.posInf_lt (x : UEFloat) : UEFloat.posInf.lt x = false := by
  cases x <;> rfl

theorem UEFloat.nan_lt (x : UEFloat) : UEFloat.nan.lt x = false := by
  cases x <;> rfl

/-- A value below a value that is at most 1 is at most 1. -/
theorem UEFloat.le_one_of_lt (a b : UEFloat) (hab : a.lt b = true)
    (hb : b.le (.fin 1) = true) : a.le (.fin 1) = true := by
  rcases a with a | _ | _ | _ <;> rcases b with b | _ | _ | _ <;>
    simp only [UEFloat.lt, UEFloat.le, decide_eq_true_eq, Bool.false_eq_true] at *
  linarith

theorem FMath.Min_le_one (A B : UEFloat) (hB : B.le (.fin 1) = true) :
    (FMath.Min A B).le (.fin 1) = true := by
  unfold FMath.Min
  split_ifs with h
  · exact UEFloat.le_one_of_lt A B h hB
  · exact hB

/-- `FMath::Clamp(X, 0, 1)` is a finite number from 0 to 1, whatever `X` is. -/
theorem FMath.Clamp_unit_cases (X : UEFloat) :
    ∃ q : ℚ, FMath.Clamp X (.fin 0) (.fin 1) = .fin q ∧ 0 ≤ q ∧ q ≤ 1 := by
  cases X with
  | fin q =>
    by_cases h1 : q < 1
    · by_cases h0 : 0 < q
      · exact ⟨q, by simp [FMath.Clamp, FMath.Min, FMath.Max, UEFloat.lt, h1, h0],
          h0.le, h1.le⟩
      · exact ⟨0, by simp [FMath.Clamp, FMath.Min, FMath.Max, UEFloat.lt, h1, h0],
          le_refl _, by norm_num⟩
    · exact ⟨1, by simp [FMath.Clamp, FMath.Min, FMath.Max, UEFloat.lt, h1],
        by norm_num, le_refl _⟩
  | posInf =>
    exact ⟨1, by simp [FMath.Clamp, FMath.Min, FMath.Max, UEFloat.lt], by norm_num, le_refl _⟩
  | negInf =>
    exact ⟨0, by simp [FMath.Clamp, FMath.Min, FMath.Max, UEFloat.lt], le_refl _, by norm_num⟩
  | nan =>
    exact ⟨1, by simp [FMath.Clamp, FMath.Min, FMath.Max, UEFloat.lt], by norm_num, le_refl _⟩

theorem FMath.Clamp_unit_range (X : UEFloat) :
    InUnitRange (FMath.Clamp X (.fin 0) (.fin 1)) := by
  obtain ⟨q, hq, h0, h1⟩ := FMath.Clamp_unit_cases X
  rw [hq]
  exact ⟨by simpa [UEFloat.le] using h0, by simpa [UEFloat.le] using h1⟩

theorem FMath.Clamp_one : FMath.Clamp (.fin 1) (.fin 0) (.fin 1) = .fin 1 := by
  simp [FMath.Clamp, FMath.Min, FMath.Max, UEFloat.lt]

theorem FMath.Clamp_negInf : FMath.Clamp .negInf (.fin 0) (.fin 1) = .fin 0 := by
  simp [FMath.Clamp, FMath.Min, FMath.Max, UEFloat.lt]

/-- A quotient by zero is an infinity or NaN. -/
theorem UEFloat.div_zero_cases (x : UEFloat) :
    x.div (.fin 0) = .posInf ∨ x.div (.fin 0) = .negInf ∨ x.div (.fin 0) = .nan := by
  rcases x with a | _ | _ | _
  · simp only [UEFloat.div, if_true]
    split_ifs
    all_goals simp
  · simp [UEFloat.div]
  · simp [UEFloat.div]
  · simp [UEFloat.div]

/-- Folding a quotient by zero into a fraction that is 1 or minus infinity leaves 1 or
minus infinity. -/
theorem FMath.Min_div_zero (x B : UEFloat) (hB : B = .fin 1 ∨ B = .negInf) :
    FMath.Min (x.div (.fin 0)) B = .fin 1 ∨ FMath.Min (x.div (.fin 0)) B = .negInf := by
  unfold FMath.Min
  rcases UEFloat.div_zero_cases x with h | h | h <;> rw [h]
  · simpa [UEFloat.posInf_lt] using hB
  · split_ifs
    · right; rfl
    · exact hB
  · simpa [UEFloat.nan_lt] using hB

/-! ## Lemmas on the ray loop -/

theorem rayLoopUpTo_zero (W : UWorld) (P : UEFloat) (VT : AActor) (S : FVector)
    (D : UEFloat) : rayLoopUpTo W P VT S D 0 = rayLoopInit VT D := by
  simp [rayLoopUpTo]

theorem rayLoopUpTo_succ (W : UWorld) (P : UEFloat) (VT : AActor) (S : FVector)
    (D : UEFloat) (n : ℕ) :
    rayLoopUpTo W P VT S D (n + 1) = rayStep W P VT S (rayLoopUpTo W P VT S D n) n := by
  simp [rayLoopUpTo, List.range_succ, List.foldl_append]

/-- What a sweep does to the frame fraction: nothing, or a fold by `Min`. -/
theorem sweepRay_frame (W : UWorld) (P : UEFloat) (VT : AActor) (S : FVector)
    (St : RayLoopState) (k : ℕ) :
    (sweepRay W P VT S St k).DistBlockedPctThisFrame = St.DistBlockedPctThisFrame ∨
    ∃ Hit, (sweepRay W P VT S St k).DistBlockedPctThisFrame =
      FMath.Min (NewBlockPct W P S S Hit) St.DistBlockedPctThisFrame := by
  unfold sweepRay
  simp only
  split
  · split_ifs
    · left; rfl
    · right; exact ⟨_, rfl⟩
  · left; rfl

theorem sweepRay_hard (W : UWorld) (P : UEFloat) (VT : AActor) (S : FVector)
    (St : RayLoopState) (k : ℕ) :
    (sweepRay W P VT S St k).HardBlockedPct = St.HardBlockedPct := by
  unfold sweepRay
  simp only
  split
  · split_ifs <;> rfl
  · rfl

theorem sweepRay_soft (W : UWorld) (P : UEFloat) (VT : AActor) (S : FVector)
    (St : RayLoopState) (k : ℕ) :
    (sweepRay W P VT S St k).SoftBlockedPct = St.SoftBlockedPct := by
  unfold sweepRay
  simp only
  split
  · split_ifs <;> rfl
  · rfl

theorem rayStep_frame (W : UWorld) (P : UEFloat) (VT : AActor) (S : FVector)
    (St : RayLoopState) (k : ℕ) :
    (rayStep W P VT S St k).DistBlockedPctThisFrame =
      (sweepRay W P VT S St k).DistBlockedPctThisFrame := by
  unfold rayStep recordRay
  split_ifs <;> rfl

theorem rayStep_params (W : UWorld) (P : UEFloat) (VT : AActor) (S : FVector)
    (St : RayLoopState) (k : ℕ) :
    (rayStep W P VT S St k).SphereParams = (sweepRay W P VT S St k).SphereParams := by
  unfold rayStep recordRay
  split_ifs <;> rfl

theorem rayStep_hard (W : UWorld) (P : UEFloat) (VT : AActor) (S : FVector)
    (St : RayLoopState) (k : ℕ) :
    (rayStep W P VT S St k).HardBlockedPct =
      if k = 0 then (rayStep W P VT S St k).DistBlockedPctThisFrame
      else St.HardBlockedPct := by
  unfold rayStep recordRay
  split_ifs
  · rfl
  · exact sweepRay_hard W P VT S St k

theorem rayStep_soft (W : UWorld) (P : UEFloat) (VT : AActor) (S : FVector)
    (St : RayLoopState) (k : ℕ) :
    (rayStep W P VT S St k).SoftBlockedPct =
      if k = 0 then St.SoftBlockedPct
      else (rayStep W P VT S St k).DistBlockedPctThisFrame := by
  unfold rayStep recordRay
  split_ifs
  · exact sweepRay_soft W P VT S St k
  · rfl

/-- The frame fraction never exceeds 1 and is never NaN. -/
theorem rayLoopUpTo_frame_le_one (W : UWorld) (P : UEFloat) (VT : AActor) (S : FVector)
    (D : UEFloat) (n : ℕ) :
    (rayLoopUpTo W P VT S D n).DistBlockedPctThisFrame.le (.fin 1) = true := by
  induction n with
  | zero => simp [rayLoopUpTo_zero, rayLoopInit, UEFloat.le]
  | succ n ih =>
    rw [rayLoopUpTo_succ, rayStep_frame]
    rcases sweepRay_frame W P VT S (rayLoopUpTo W P VT S D n) n with h | ⟨Hit, h⟩
    · rw [h]; exact ih
    · rw [h]; exact FMath.Min_le_one _ _ ih

/-- With rays of length zero the frame fraction is 1 or minus infinity. -/
theorem rayLoopUpTo_frame_cases (W : UWorld) (P : UEFloat) (VT : AActor) (S : FVector)
    (D : UEFloat) (hlen : W.Size (S.sub S) = .fin 0) (n : ℕ) :
    (rayLoopUpTo W P VT S D n).DistBlockedPctThisFrame = .fin 1 ∨
      (rayLoopUpTo W P VT S D n).DistBlockedPctThisFrame = .negInf := by
  induction n with
  | zero => simp [rayLoopUpTo_zero, rayLoopInit]
  | succ n ih =>
    rw [rayLoopUpTo_succ, rayStep_frame]
    rcases sweepRay_frame W P VT S (rayLoopUpTo W P VT S D n) n with h | ⟨Hit, h⟩
    · rw [h]; exact ih
    · rw [h]
      unfold NewBlockPct
      rw [hlen]
      exact FMath.Min_div_zero _ _ ih

/-- The stored fraction that `PreventCameraPenetration` returns. -/
theorem PreventCameraPenetration_fraction (W : UWorld) (P : UEFloat) (bReset : Bool)
    (VT : AActor) (S C : FVector) (D : UEFloat) (bSingle : Bool) :
    (PreventCameraPenetration W P bReset VT S C D bSingle).DistBlockedPct =
      FMath.Clamp (interpolate bReset D (rayLoop W P VT S D bSingle)) (.fin 0) (.fin 1) := by
  unfold PreventCameraPenetration finish
  simp only
  split_ifs <;> rfl

/-- A frame update leaves the stored fraction alone or stores a result of
`PreventCameraPenetration`. -/
theorem UpdatePreventPenetration_fraction (W : UWorld) (H : UCameraHost)
    (M N : UCameraMode_Fixed) (L : List ECameraAssist)
    (h : UpdatePreventPenetration W H M = some (N, L)) :
    N.AimLineToDesiredPosBlockedPct = M.AimLineToDesiredPosBlockedPct ∨
    ∃ VT S C, N.AimLineToDesiredPosBlockedPct =
      (PreventCameraPenetration W M.CollisionPushOutDistance M.bResetInterpolation VT S C
        M.AimLineToDesiredPosBlockedPct true).DistBlockedPct := by
  unfold UpdatePreventPenetration at h
  simp only at h
  split_ifs at h with hb
  · simp only [Option.some.injEq, Prod.mk.injEq] at h
    left; rw [← h.1]
  · split at h
    · exact absurd h (by simp)
    · split at h
      · simp only [Option.some.injEq, Prod.mk.injEq] at h
        left; rw [← h.1]
      · simp only [Option.some.injEq, Prod.mk.injEq] at h
        right
        rw [← h.1]
        exact ⟨_, _, _, rfl⟩

/-! ## Properties of the penetration prevention -/

/-- C1. Whatever the previous `DistBlockedPct`, the reset flag, the ray mode and the sweep
results, the `DistBlockedPct` that `PreventCameraPenetration` leaves is in [0,1]; and
`AimLineToDesiredPosBlockedPct`, which the constructor starts at 0, is in [0,1] in every
reachable state of the camera mode. -/
theorem C1_blocked_fraction_in_unit_range :
    (∀ (W : UWorld) (P : UEFloat) (bReset : Bool) (VT : AActor) (S C : FVector)
        (D : UEFloat) (bSingle : Bool),
      InUnitRange (PreventCameraPenetration W P bReset VT S C D bSingle).DistBlockedPct) ∧
    (∀ M : UCameraMode_Fixed, Reachable M → InUnitRange M.AimLineToDesiredPosBlockedPct) := by
  have hcall : ∀ (W : UWorld) (P : UEFloat) (bReset : Bool) (VT : AActor) (S C : FVector)
      (D : UEFloat) (bSingle : Bool),
      InUnitRange (PreventCameraPenetration W P bReset VT S C D bSingle).DistBlockedPct := by
    intro W P bReset VT S C D bSingle
    rw [PreventCameraPenetration_fraction]
    exact FMath.Clamp_unit_range _
  refine ⟨hcall, ?_⟩
  intro M hM
  induction hM with
  | constructed M h =>
    rw [h.2.2.2]
    exact ⟨by simp [UEFloat.le], by simp [UEFloat.le]⟩
  | otherWrite M N _ h ih => rw [h]; exact ih
  | frame W H M N L _ h ih =>
    unfold UpdateView at h
    rcases UpdatePreventPenetration_fraction W H _ N L h with h1 | ⟨VT, S, C, h1⟩
    · rw [h1]; exact ih
    · rw [h1]; exact hcall _ _ _ _ _ _ _ _
  | call W M N VT S C bSingle _ h ih => rw [h]; exact hcall _ _ _ _ _ _ _ _


/-- `FMath::Clamp(X, 0, 1)` is `X` when `X` is in [0,1]. -/
theorem FMath.Clamp_of_unit (X : UEFloat) (h : InUnitRange X) :
    FMath.Clamp X (.fin 0) (.fin 1) = X := by
  obtain ⟨h0, h1⟩ := h
  rcases X with x | _ | _ | _ <;>
    simp only [UEFloat.le, decide_eq_true_eq, Bool.false_eq_true] at h0 h1
  by_cases ha : x < 1
  · by_cases hb : 0 < x
    · simp [FMath.Clamp, FMath.Min, FMath.Max, UEFloat.lt, ha, hb]
    · have hx : x = 0 := le_antisymm (not_lt.mp hb) h0
      simp [FMath.Clamp, FMath.Min, FMath.Max, UEFloat.lt, hx]
  · have hx : x = 1 := le_antisymm h1 (not_lt.mp ha)
    simp [FMath.Clamp, FMath.Min, FMath.Max, UEFloat.lt, hx]

/-- A raw fraction strictly above a stored fraction that is at least 0 is in [0,1]. -/
theorem InUnitRange_of_gt (D X : UEFloat) (h0 : (UEFloat.fin 0).le D = true)
    (hgt : D.lt X = true) (h1 : X.le (.fin 1) = true) : InUnitRange X := by
  rcases D with d | _ | _ | _ <;> rcases X with x | _ | _ | _ <;>
    simp only [UEFloat.lt, UEFloat.le, decide_eq_true_eq, Bool.false_eq_true] at h0 hgt h1
  exact ⟨by simp only [UEFloat.le, decide_eq_true_eq]; linarith,
    by simp only [UEFloat.le, decide_eq_true_eq]; exact h1⟩

/-- C2. Easing: with the reset flag clear and the frame's raw fraction strictly above the
stored `DistBlockedPct`, the new stored fraction is the raw fraction exactly.  This holds
for every stored value, the rays having length zero as every ray of the source has, and
on rays of any length for a stored value of at least 0. -/
theorem C2_easing_snaps_to_raw (W : UWorld) (P : UEFloat) (VT : AActor) (S C : FVector)
    (D : UEFloat) (bSingle : Bool)
    (hcall : W.Size (S.sub S) = .fin 0 ∨ (UEFloat.fin 0).le D = true)
    (hgt : D.lt (rayLoop W P VT S D bSingle).DistBlockedPctThisFrame = true) :
    (PreventCameraPenetration W P false VT S C D bSingle).DistBlockedPct =
      (rayLoop W P VT S D bSingle).DistBlockedPctThisFrame := by
  rw [PreventCameraPenetration_fraction]
  have hi : interpolate false D (rayLoop W P VT S D bSingle) =
      (rayLoop W P VT S D bSingle).DistBlockedPctThisFrame := by
    simp [interpolate, hgt]
  rw [hi]
  rcases hcall with hlen | h0
  · have hc : (rayLoop W P VT S D bSingle).DistBlockedPctThisFrame = .fin 1 ∨
        (rayLoop W P VT S D bSingle).DistBlockedPctThisFrame = .negInf :=
      rayLoopUpTo_frame_cases W P VT S D hlen (NumRaysToShoot bSingle)
    rcases hc with h1 | h2
    · rw [h1]; exact FMath.Clamp_one
    · rw [h2, UEFloat.lt_negInf] at hgt
      exact absurd hgt (by simp)
  · exact FMath.Clamp_of_unit _ (InUnitRange_of_gt D _ h0 hgt
      (rayLoopUpTo_frame_le_one W P VT S D (NumRaysToShoot bSingle)))

/-- Scenario C of C2: a stored fraction of 0.3, then a frame without any hit: the stored
fraction is 1.0 after that one frame. -/
theorem C2_easing_witness :
    (PreventCameraPenetration emptyScene (.fin 2) false 1 originLoc desiredLoc
      (.fin (3 / 10)) true).DistBlockedPct = .fin 1 :=
  (C2_easing_snaps_to_raw emptyScene (.fin 2) 1 originLoc desiredLoc (.fin (3 / 10)) true
    (Or.inl (by norm_num [emptyScene, sceneWorld, axisSize, originLoc, FVector.ofRat,
      FVector.sub, UEFloat.sub, UEFloat.add, UEFloat.neg]))
    (by norm_num [rayLoop, NumRaysToShoot, rayLoopUpTo, List.range_succ, rayLoopInit, rayStep, sweepRay,
      recordRay, emptyScene, sceneWorld, noHit, UEFloat.lt])).trans
    (by norm_num [rayLoop, NumRaysToShoot, rayLoopUpTo, List.range_succ, rayLoopInit, rayStep, sweepRay,
      recordRay, emptyScene, sceneWorld, noHit])


/-- After the first ray `HardBlockedPct` keeps the frame fraction that ray 0 left. -/
theorem rayLoopUpTo_hard (W : UWorld) (P : UEFloat) (VT : AActor) (S : FVector)
    (D : UEFloat) (n : ℕ) :
    (rayLoopUpTo W P VT S D (n + 1)).HardBlockedPct =
      (rayLoopUpTo W P VT S D 1).DistBlockedPctThisFrame := by
  induction n with
  | zero => rw [rayLoopUpTo_succ, rayStep_hard]; simp [rayLoopUpTo_succ]
  | succ n ih => rw [rayLoopUpTo_succ, rayStep_hard]; simpa using ih

/-- The locals at the end of the ray loop: `HardBlockedPct` is at most 1, and
`SoftBlockedPct` is the frame fraction (four rays) or still the stored fraction while
`HardBlockedPct` is the frame fraction (one ray). -/
theorem rayLoop_shape (W : UWorld) (P : UEFloat) (VT : AActor) (S : FVector)
    (D : UEFloat) (bSingle : Bool) :
    (rayLoop W P VT S D bSingle).HardBlockedPct.le (.fin 1) = true ∧
    ((rayLoop W P VT S D bSingle).SoftBlockedPct =
        (rayLoop W P VT S D bSingle).DistBlockedPctThisFrame ∨
      ((rayLoop W P VT S D bSingle).HardBlockedPct =
          (rayLoop W P VT S D bSingle).DistBlockedPctThisFrame ∧
        (rayLoop W P VT S D bSingle).SoftBlockedPct = D)) := by
  cases bSingle with
  | true =>
    refine ⟨?_, Or.inr ⟨?_, ?_⟩⟩
    · show (rayLoopUpTo W P VT S D (0 + 1)).HardBlockedPct.le (.fin 1) = true
      rw [rayLoopUpTo_hard]
      exact rayLoopUpTo_frame_le_one W P VT S D 1
    · show (rayLoopUpTo W P VT S D (0 + 1)).HardBlockedPct = _
      rw [rayLoopUpTo_hard]; rfl
    · show (rayLoopUpTo W P VT S D (0 + 1)).SoftBlockedPct = D
      rw [rayLoopUpTo_succ, rayStep_soft, rayLoopUpTo_zero]; rfl
  | false =>
    refine ⟨?_, Or.inl ?_⟩
    · show (rayLoopUpTo W P VT S D (3 + 1)).HardBlockedPct.le (.fin 1) = true
      rw [rayLoopUpTo_hard]
      exact rayLoopUpTo_frame_le_one W P VT S D 1
    · show (rayLoopUpTo W P VT S D (3 + 1)).SoftBlockedPct =
        (rayLoopUpTo W P VT S D (3 + 1)).DistBlockedPctThisFrame
      rw [rayLoopUpTo_succ, rayStep_soft]; simp

/-- The order facts behind the tightening rule. -/
theorem tighten_core (St : RayLoopState) (D : UEFloat)
    (hraw : St.DistBlockedPctThisFrame.le D = true) (h0 : (UEFloat.fin 0).le D = true)
    (hH1 : St.HardBlockedPct.le (.fin 1) = true)
    (hcases : St.SoftBlockedPct = St.DistBlockedPctThisFrame ∨
      (St.HardBlockedPct = St.DistBlockedPctThisFrame ∧ St.SoftBlockedPct = D)) :
    (FMath.Clamp (interpolate false D St) (.fin 0) (.fin 1)).le D = true ∧
    (FMath.Min St.HardBlockedPct St.SoftBlockedPct).le
      (FMath.Clamp (interpolate false D St) (.fin 0) (.fin 1)) = true := by
  obtain ⟨L, raw, H, S⟩ := St
  simp only at hraw hH1 hcases ⊢
  rcases hcases with rfl | ⟨rfl, rfl⟩
  · rcases D with d | _ | _ | _ <;> rcases H with h | _ | _ | _ <;>
      rcases S with s | _ | _ | _ <;>
      simp only [interpolate, FMath.Clamp, FMath.Min, FMath.Max, UEFloat.lt, UEFloat.le,
        UEFloat.gt, decide_eq_true_eq, Bool.false_eq_true, if_false, if_true] at * <;>
      (try split_ifs) <;>
      simp only [UEFloat.lt, UEFloat.le, decide_eq_true_eq, Bool.false_eq_true, and_self,
        true_and, and_true] at * <;>
      (try constructor) <;> (first | done | linarith | simp_all)
  · rcases S with d | _ | _ | _ <;> rcases H with h | _ | _ | _ <;>
      simp only [interpolate, FMath.Clamp, FMath.Min, FMath.Max, UEFloat.lt, UEFloat.le,
        UEFloat.gt, decide_eq_true_eq, Bool.false_eq_true, if_false, if_true] at * <;>
      (try split_ifs) <;>
      simp only [UEFloat.lt, UEFloat.le, decide_eq_true_eq, Bool.false_eq_true, and_self,
        true_and, and_true] at * <;>
      (try constructor) <;> (first | done | linarith)

/-- C3. Tightening: with the reset flag clear and the raw fraction at most the stored
`DistBlockedPct`, the new stored fraction is at most the previous one and at least
`Min(HardBlockedPct, SoftBlockedPct)` of the end of the ray loop, in both ray modes.  The
stored value is at least 0, as the stored fraction of every reachable camera mode is. -/
theorem C3_tightening_bounds (W : UWorld) (P : UEFloat) (VT : AActor) (S C : FVector)
    (D : UEFloat) (bSingle : Bool)
    (hraw : (rayLoop W P VT S D bSingle).DistBlockedPctThisFrame.le D = true)
    (h0 : (UEFloat.fin 0).le D = true) :
    (PreventCameraPenetration W P false VT S C D bSingle).DistBlockedPct.le D = true ∧
    (FMath.Min (rayLoop W P VT S D bSingle).HardBlockedPct
        (rayLoop W P VT S D bSingle).SoftBlockedPct).le
      (PreventCameraPenetration W P false VT S C D bSingle).DistBlockedPct = true := by
  rw [PreventCameraPenetration_fraction]
  obtain ⟨hH, hc⟩ := rayLoop_shape W P VT S D bSingle
  exact tighten_core _ D hraw h0 hH hc

/-- C3 on a wall nearer than the push-out distance with a stored fraction of
0.5: the new stored fraction, 0, is at most 0.5 and at least the minimum of the two
tracked fractions. -/
theorem C3_tightening_witness :
    (PreventCameraPenetration nearWallScene (.fin 2) false 1 originLoc desiredLoc
        (.fin (1 / 2)) true).DistBlockedPct.le (.fin (1 / 2)) = true ∧
    (FMath.Min (rayLoop nearWallScene (.fin 2) 1 originLoc (.fin (1 / 2)) true).HardBlockedPct
        (rayLoop nearWallScene (.fin 2) 1 originLoc (.fin (1 / 2)) true).SoftBlockedPct).le
      (PreventCameraPenetration nearWallScene (.fin 2) false 1 originLoc desiredLoc
        (.fin (1 / 2)) true).DistBlockedPct = true :=
  C3_tightening_bounds nearWallScene (.fin 2) 1 originLoc desiredLoc (.fin (1 / 2)) true
    (by norm_num [rayLoop, NumRaysToShoot, rayLoopUpTo, List.range_succ, rayLoopInit,
      rayStep, sweepRay, recordRay, nearWallScene, sceneWorld, hitAt, bIgnoreHit,
      NewBlockPct, NAME_IgnoreCameraCollision, axisSize, originLoc, FVector.ofRat,
      FVector.sub, UEFloat.sub, UEFloat.add, UEFloat.neg, UEFloat.div, FMath.Min,
      UEFloat.lt, UEFloat.le])
    (by norm_num [UEFloat.le])


/-- C4, as stated, fails when the raw fraction is below 0: with the reset flag set and a
wall nearer than the push-out distance on the only ray, the raw fraction is minus
infinity and the new stored fraction is 0. -/
theorem C4_reset_counterexample :
    (rayLoop nearWallScene (.fin 2) 1 originLoc (.fin 1) true).DistBlockedPctThisFrame =
        .negInf ∧
    (PreventCameraPenetration nearWallScene (.fin 2) true 1 originLoc desiredLoc
        (.fin 1) true).DistBlockedPct = .fin 0 := by
  refine ⟨?_, ?_⟩
  · norm_num [rayLoop, NumRaysToShoot, rayLoopUpTo, List.range_succ, rayLoopInit, rayStep,
      sweepRay, recordRay, nearWallScene, sceneWorld, hitAt, bIgnoreHit, NewBlockPct,
      NAME_IgnoreCameraCollision, axisSize, originLoc, FVector.ofRat, FVector.sub,
      UEFloat.sub, UEFloat.add, UEFloat.neg, UEFloat.div, FMath.Min, UEFloat.lt]
  · norm_num [PreventCameraPenetration, finish, interpolate, rayLoop, NumRaysToShoot,
      rayLoopUpTo, List.range_succ, rayLoopInit, rayStep,
      sweepRay, recordRay, nearWallScene, sceneWorld, hitAt, bIgnoreHit, NewBlockPct,
      NAME_IgnoreCameraCollision, axisSize, originLoc, FVector.ofRat, FVector.sub,
      UEFloat.sub, UEFloat.add, UEFloat.neg, UEFloat.div, FMath.Min, FMath.Max, FMath.Clamp,
      UEFloat.lt]

/-- C4, amended. Reset: with `bResetInterpolation` set, the new stored `DistBlockedPct` is
the frame's raw fraction clamped to [0,1], whatever the previous stored value and the
sweep results; it is the raw fraction itself whenever that lies in [0,1]. -/
theorem C4_reset_stores_clamped_raw (W : UWorld) (P : UEFloat) (VT : AActor)
    (S C : FVector) (D : UEFloat) (bSingle : Bool) :
    (PreventCameraPenetration W P true VT S C D bSingle).DistBlockedPct =
      FMath.Clamp (rayLoop W P VT S D bSingle).DistBlockedPctThisFrame (.fin 0) (.fin 1) ∧
    (InUnitRange (rayLoop W P VT S D bSingle).DistBlockedPctThisFrame →
      (PreventCameraPenetration W P true VT S C D bSingle).DistBlockedPct =
        (rayLoop W P VT S D bSingle).DistBlockedPctThisFrame) := by
  have h : (PreventCameraPenetration W P true VT S C D bSingle).DistBlockedPct =
      FMath.Clamp (rayLoop W P VT S D bSingle).DistBlockedPctThisFrame (.fin 0) (.fin 1) := by
    rw [PreventCameraPenetration_fraction]
    simp [interpolate]
  exact ⟨h, fun hr => h.trans (FMath.Clamp_of_unit _ hr)⟩

/-- Without a hit the sweep of a ray changes nothing. -/
theorem sweepRay_noHit (W : UWorld) (P : UEFloat) (VT : AActor) (S : FVector)
    (St : RayLoopState) (k : ℕ)
    (h : (W.SweepSingleByChannel k S S St.SphereParams).1 = false) :
    sweepRay W P VT S St k = St := by
  unfold sweepRay
  simp only
  split
  · rename_i h1 _
    rw [h] at h1
    exact absurd h1 (by simp)
  · rfl

/-- The locals at the end of the ray loop when no sweep reports a hit. -/
theorem rayLoop_noHit (W : UWorld) (P : UEFloat) (VT : AActor) (S : FVector)
    (D : UEFloat) (bSingle : Bool)
    (hno : ∀ k, k < NumRaysToShoot bSingle → (W.SweepSingleByChannel k S S [VT]).1 = false) :
    rayLoop W P VT S D bSingle =
      ⟨[VT], .fin 1, .fin 1, if bSingle then D else .fin 1⟩ := by
  have s1 : (∀ k, k < 1 → (W.SweepSingleByChannel k S S [VT]).1 = false) →
      rayLoopUpTo W P VT S D 1 = ⟨[VT], .fin 1, .fin 1, D⟩ := by
    intro h
    rw [rayLoopUpTo_succ, rayLoopUpTo_zero]
    unfold rayStep
    rw [sweepRay_noHit W P VT S _ 0 (h 0 (by decide))]
    simp [recordRay, rayLoopInit]
  cases bSingle with
  | true => exact s1 hno
  | false =>
    have s2 : rayLoopUpTo W P VT S D 2 = ⟨[VT], .fin 1, .fin 1, .fin 1⟩ := by
      rw [rayLoopUpTo_succ, s1 (fun k hk => hno k (by simp [NumRaysToShoot]; omega))]
      unfold rayStep
      rw [sweepRay_noHit W P VT S _ 1 (hno 1 (by decide))]
      simp [recordRay]
    have s3 : rayLoopUpTo W P VT S D 3 = ⟨[VT], .fin 1, .fin 1, .fin 1⟩ := by
      rw [rayLoopUpTo_succ, s2]
      unfold rayStep
      rw [sweepRay_noHit W P VT S _ 2 (hno 2 (by decide))]
      simp [recordRay]
    show rayLoopUpTo W P VT S D (3 + 1) = _
    rw [rayLoopUpTo_succ, s3]
    unfold rayStep
    rw [sweepRay_noHit W P VT S _ 3 (hno 3 (by decide))]
    simp [recordRay]

/-- With every tracked fraction at 1 the clamped stored fraction is 1. -/
theorem interpolate_open (L : List AActor) (bReset : Bool) (D X : UEFloat)
    (hX : X = D ∨ X = .fin 1) :
    FMath.Clamp (interpolate bReset D ⟨L, .fin 1, .fin 1, X⟩) (.fin 0) (.fin 1) = .fin 1 := by
  cases bReset with
  | true => simp [interpolate, FMath.Clamp_one]
  | false =>
    rcases hX with rfl | rfl
    · rcases X with d | _ | _ | _ <;>
        simp only [interpolate, FMath.Clamp, FMath.Min, FMath.Max, UEFloat.lt, UEFloat.gt,
          decide_eq_true_eq, Bool.false_eq_true, if_false, if_true] <;>
        (try split_ifs) <;>
        simp only [UEFloat.lt, decide_eq_true_eq, Bool.false_eq_true, if_false, if_true,
          UEFloat.fin.injEq] at * <;>
        (first | done | linarith)
    · rcases D with d | _ | _ | _ <;>
        simp only [interpolate, FMath.Clamp, FMath.Min, FMath.Max, UEFloat.lt, UEFloat.gt,
          decide_eq_true_eq, Bool.false_eq_true, if_false, if_true] <;>
        (try split_ifs) <;>
        simp only [UEFloat.lt, decide_eq_true_eq, Bool.false_eq_true, if_false, if_true,
          UEFloat.fin.injEq] at * <;>
        (first | done | linarith)

/-- Nothing below 1 is at least 1 minus a threshold that is not negative. -/
theorem UEFloat.one_not_lt_one_sub (T : UEFloat) (hT : (UEFloat.fin 0).le T = true) :
    (UEFloat.fin 1).lt ((UEFloat.fin 1).sub T) = false := by
  rcases T with t | _ | _ | _ <;>
    simp only [UEFloat.le, UEFloat.lt, UEFloat.sub, UEFloat.add, UEFloat.neg,
      decide_eq_true_eq, decide_eq_false_iff_not, Bool.false_eq_true] at *
  linarith

/-- C5. Scenario A: when no sweep of the frame reports a hit, `PreventCameraPenetration`
leaves `DistBlockedPct` equal to 1.0 and `CameraLoc` equal to the desired location, for
every previous `DistBlockedPct`, reset flag and ray mode; `ZERO_ANIMWEIGHT_THRESH` is not
negative. -/
theorem C5_no_hit_leaves_camera (W : UWorld) (P : UEFloat) (bReset : Bool) (VT : AActor)
    (S C : FVector) (D : UEFloat) (bSingle : Bool)
    (hno : ∀ k, k < NumRaysToShoot bSingle → (W.SweepSingleByChannel k S S [VT]).1 = false)
    (hT : (UEFloat.fin 0).le W.ZERO_ANIMWEIGHT_THRESH = true) :
    PreventCameraPenetration W P bReset VT S C D bSingle = ⟨C, .fin 1⟩ := by
  unfold PreventCameraPenetration finish
  simp only
  rw [rayLoop_noHit W P VT S D bSingle hno]
  have hc : FMath.Clamp (interpolate bReset D
      ⟨[VT], .fin 1, .fin 1, if bSingle then D else .fin 1⟩) (.fin 0) (.fin 1) = .fin 1 := by
    apply interpolate_open
    cases bSingle <;> simp
  rw [hc, UEFloat.one_not_lt_one_sub _ hT]
  simp

/-- C5 on the empty scene, from a stored fraction of 0.3 with four rays. -/
theorem C5_no_hit_witness :
    PreventCameraPenetration emptyScene (.fin 2) false 1 originLoc desiredLoc
      (.fin (3 / 10)) false = ⟨desiredLoc, .fin 1⟩ :=
  C5_no_hit_leaves_camera emptyScene (.fin 2) false 1 originLoc desiredLoc (.fin (3 / 10))
    false (by intro k _; rfl) (by norm_num [emptyScene, sceneWorld, UEFloat.le])


/-- A sweep only ever appends to the ignored actors. -/
theorem sweepRay_params (W : UWorld) (P : UEFloat) (VT : AActor) (S : FVector)
    (St : RayLoopState) (k : ℕ) :
    (sweepRay W P VT S St k).SphereParams = St.SphereParams ∨
    ∃ A, (sweepRay W P VT S St k).SphereParams = St.SphereParams ++ [A] := by
  unfold sweepRay
  simp only
  split
  · split_ifs
    · right; exact ⟨_, rfl⟩
    · left; rfl
  · left; rfl

/-- An actor that is ignored stays ignored for the rest of the loop. -/
theorem rayLoopUpTo_params_mono (W : UWorld) (P : UEFloat) (VT : AActor) (S : FVector)
    (D : UEFloat) (A : AActor) (i : ℕ) (hA : A ∈ (rayLoopUpTo W P VT S D i).SphereParams)
    (j : ℕ) (hij : i ≤ j) : A ∈ (rayLoopUpTo W P VT S D j).SphereParams := by
  induction j with
  | zero =>
    have hi : i = 0 := Nat.le_zero.mp hij
    rw [hi] at hA
    exact hA
  | succ j ih =>
    rcases Nat.lt_or_ge i (j + 1) with hlt | hge
    · have hmem := ih (Nat.lt_succ_iff.mp hlt)
      rw [rayLoopUpTo_succ, rayStep_params]
      rcases sweepRay_params W P VT S (rayLoopUpTo W P VT S D j) j with h | ⟨B, h⟩
      · rw [h]; exact hmem
      · rw [h]; exact List.mem_append_left _ hmem
    · have hi : i = j + 1 := le_antisymm hij hge
      rw [hi] at hA
      exact hA

/-- The sweep of a ray whose hit is ignored. -/
theorem sweepRay_ignored (W : UWorld) (P : UEFloat) (VT : AActor) (S : FVector)
    (St : RayLoopState) (k : ℕ) (A : AActor)
    (hhit : (W.SweepSingleByChannel k S S St.SphereParams).1 = true)
    (hactor : (W.SweepSingleByChannel k S S St.SphereParams).2.Actor = some A)
    (hign : bIgnoreHit W VT A (W.SweepSingleByChannel k S S St.SphereParams).2 = true) :
    sweepRay W P VT S St k =
      ⟨St.SphereParams ++ [A], St.DistBlockedPctThisFrame, St.HardBlockedPct,
        St.SoftBlockedPct⟩ := by
  unfold sweepRay
  simp only
  rw [hhit, hactor]
  simp only
  rw [if_pos hign]

/-- The sweep of a ray whose hit is blocking. -/
theorem sweepRay_blocking (W : UWorld) (P : UEFloat) (VT : AActor) (S : FVector)
    (St : RayLoopState) (k : ℕ) (A : AActor)
    (hhit : (W.SweepSingleByChannel k S S St.SphereParams).1 = true)
    (hactor : (W.SweepSingleByChannel k S S St.SphereParams).2.Actor = some A)
    (hign : bIgnoreHit W VT A (W.SweepSingleByChannel k S S St.SphereParams).2 = false) :
    sweepRay W P VT S St k =
      ⟨St.SphereParams,
        FMath.Min (NewBlockPct W P S S (W.SweepSingleByChannel k S S St.SphereParams).2)
          St.DistBlockedPctThisFrame,
        St.HardBlockedPct, St.SoftBlockedPct⟩ := by
  unfold sweepRay
  simp only
  rw [hhit, hactor]
  simp only
  rw [if_neg (by simp [hign])]

/-- A value that is at most 0 is not above 0. -/
theorem UEFloat.not_gt_of_le (a b : UEFloat) (h : a.le b = true) : a.gt b = false := by
  rcases a with a | _ | _ | _ <;> rcases b with b | _ | _ | _ <;>
    simp only [UEFloat.le, UEFloat.gt, UEFloat.lt, decide_eq_true_eq, decide_eq_false_iff_not,
      Bool.false_eq_true] at *
  linarith

/-- Folding by `Min` never raises a fraction that is at most 1. -/
theorem FMath.Min_le_right (A B : UEFloat) (hB : B.le (.fin 1) = true) :
    (FMath.Min A B).le B = true := by
  rcases A with a | _ | _ | _ <;> rcases B with b | _ | _ | _ <;>
    simp only [UEFloat.le, decide_eq_true_eq, Bool.false_eq_true] at hB <;>
    simp only [FMath.Min, UEFloat.lt, decide_eq_true_eq, Bool.false_eq_true, if_false,
      if_true] <;>
    (try split_ifs) <;>
    ((try simp only [UEFloat.le, decide_eq_true_eq, le_refl]); first | done | linarith)

/-- Below over zero is minus infinity. -/
theorem UEFloat.sub_div_zero_of_lt (a b : UEFloat) (h : a.lt b = true) :
    (a.sub b).div (.fin 0) = .negInf := by
  rcases a with a | _ | _ | _ <;> rcases b with b | _ | _ | _ <;>
    simp only [UEFloat.lt, decide_eq_true_eq, Bool.false_eq_true] at h <;>
    simp only [UEFloat.sub, UEFloat.add, UEFloat.neg, UEFloat.div, if_true, le_refl]
  have h1 : ¬ (a + -b = 0) := by intro h2; linarith
  have h2 : ¬ (0 < a + -b) := by intro h2; linarith
  simp [h1, h2]

/-- Above over zero is plus infinity. -/
theorem UEFloat.sub_div_zero_of_gt (a b : UEFloat) (h : b.lt a = true) :
    (a.sub b).div (.fin 0) = .posInf := by
  rcases a with a | _ | _ | _ <;> rcases b with b | _ | _ | _ <;>
    simp only [UEFloat.lt, decide_eq_true_eq, Bool.false_eq_true] at h <;>
    simp only [UEFloat.sub, UEFloat.add, UEFloat.neg, UEFloat.div, if_true, le_refl]
  have h1 : ¬ (a + -b = 0) := by intro h2; linarith
  have h2 : 0 < a + -b := by linarith
  simp [h1, h2]

/-- C7, as stated, fails: on a ray of length zero the fraction of a blocking hit five
units from `SafeLoc`, with a push-out distance of 2, is plus infinity, not 0; the hit is
blocking, and the frame ends with a stored fraction of 1.0 and the camera at its desired
location, not fully blocked. -/
theorem C7_zero_length_counterexample :
    farWallScene.Size (originLoc.sub originLoc) = .fin 0 ∧
    bIgnoreHit farWallScene 1 5 (hitAt 5 5).2 = false ∧
    NewBlockPct farWallScene (.fin 2) originLoc originLoc (hitAt 5 5).2 = .posInf ∧
    PreventCameraPenetration farWallScene (.fin 2) false 1 originLoc desiredLoc (.fin 1)
      true = ⟨desiredLoc, .fin 1⟩ := by
  refine ⟨?_, ?_, ?_, ?_⟩
  · norm_num [farWallScene, sceneWorld, axisSize, originLoc, FVector.ofRat, FVector.sub,
      UEFloat.sub, UEFloat.add, UEFloat.neg]
  · simp [bIgnoreHit, farWallScene, sceneWorld]
  · norm_num [NewBlockPct, farWallScene, sceneWorld, hitAt, axisSize, originLoc,
      FVector.ofRat, FVector.sub, UEFloat.sub, UEFloat.add, UEFloat.neg, UEFloat.div]
  · norm_num [PreventCameraPenetration, finish, interpolate, rayLoop, NumRaysToShoot,
      rayLoopUpTo, List.range_succ, rayLoopInit, rayStep,
      sweepRay, recordRay, farWallScene, sceneWorld, hitAt, bIgnoreHit, NewBlockPct,
      NAME_IgnoreCameraCollision, axisSize, originLoc, FVector.ofRat, FVector.sub,
      UEFloat.sub, UEFloat.add, UEFloat.neg, UEFloat.div, FMath.Min, FMath.Max, FMath.Clamp,
      UEFloat.lt, UEFloat.gt]

/-- C7, amended. The division by the ray length is not guarded: for a hit on a ray whose
length is zero the fraction computed for the hit is never a finite number; it is plus
infinity when the hit is farther from `SafeLoc` than `CollisionPushOutDistance`, which
leaves any frame fraction unchanged under `Min`, and minus infinity when the hit is
nearer. -/
theorem C7_zero_length_fraction (W : UWorld) (P : UEFloat) (S RayTarget : FVector)
    (Hit : FHitResult) (hlen : W.Size (RayTarget.sub S) = .fin 0) :
    (∀ q : ℚ, NewBlockPct W P S RayTarget Hit ≠ .fin q) ∧
    (P.lt (W.Size (Hit.Location.sub S)) = true →
      NewBlockPct W P S RayTarget Hit = .posInf ∧
      ∀ B : UEFloat, FMath.Min (NewBlockPct W P S RayTarget Hit) B = B) ∧
    ((W.Size (Hit.Location.sub S)).lt P = true →
      NewBlockPct W P S RayTarget Hit = .negInf) := by
  unfold NewBlockPct
  rw [hlen]
  refine ⟨?_, ?_, ?_⟩
  · intro q hq
    rcases UEFloat.div_zero_cases ((W.Size (Hit.Location.sub S)).sub P) with h | h | h <;>
      rw [h] at hq <;> exact absurd hq (by simp)
  · intro h
    rw [UEFloat.sub_div_zero_of_gt _ _ h]
    exact ⟨rfl, fun B => by simp [FMath.Min, UEFloat.posInf_lt]⟩
  · intro h
    exact UEFloat.sub_div_zero_of_lt _ _ h

/-- The amended C7 on the far wall: the ray has length zero and the fraction of the hit
is not the number 0. -/
theorem C7_zero_length_witness :
    NewBlockPct farWallScene (.fin 2) originLoc originLoc (hitAt 5 5).2 ≠ .fin 0 :=
  (C7_zero_length_fraction farWallScene (.fin 2) originLoc originLoc (hitAt 5 5).2
    (by norm_num [farWallScene, sceneWorld, axisSize, originLoc, FVector.ofRat, FVector.sub,
      UEFloat.sub, UEFloat.add, UEFloat.neg])).1 0


/-- Once the frame fraction is minus infinity it stays so. -/
theorem rayLoopUpTo_frame_negInf (W : UWorld) (P : UEFloat) (VT : AActor) (S : FVector)
    (D : UEFloat) (i : ℕ)
    (h : (rayLoopUpTo W P VT S D i).DistBlockedPctThisFrame = .negInf) (j : ℕ) :
    (rayLoopUpTo W P VT S D (i + j)).DistBlockedPctThisFrame = .negInf := by
  induction j with
  | zero => exact h
  | succ j ih =>
    rw [← Nat.add_assoc, rayLoopUpTo_succ, rayStep_frame]
    rcases sweepRay_frame W P VT S (rayLoopUpTo W P VT S D (i + j)) (i + j) with h1 | ⟨Hit, h1⟩
    · rw [h1]; exact ih
    · rw [h1, ih]
      simp [FMath.Min, UEFloat.lt_negInf]

/-- Moving a finite coordinate by zero times a finite offset leaves it where it was. -/
theorem UEFloat.add_mul_zero (a b : UEFloat) (ha : a.IsFinite = true)
    (hb : b.IsFinite = true) : a.add ((b.sub a).mul (.fin 0)) = a := by
  rcases a with a | _ | _ | _ <;> rcases b with b | _ | _ | _ <;>
    simp only [UEFloat.IsFinite, Bool.false_eq_true] at ha hb
  simp [UEFloat.add, UEFloat.sub, UEFloat.neg, UEFloat.mul]

theorem FVector.add_scale_zero (S C : FVector) (hS : S.IsFinite = true)
    (hC : C.IsFinite = true) : S.add ((C.sub S).scale (.fin 0)) = S := by
  obtain ⟨sx, sy, sz⟩ := S
  obtain ⟨cx, cy, cz⟩ := C
  simp only [FVector.IsFinite, Bool.and_eq_true] at hS hC
  simp only [FVector.add, FVector.sub, FVector.scale]
  rw [UEFloat.add_mul_zero sx cx hS.1.1 hC.1.1, UEFloat.add_mul_zero sy cy hS.1.2 hC.1.2,
    UEFloat.add_mul_zero sz cz hS.2 hC.2]

/-- Zero is below 1 minus a threshold that is below 1. -/
theorem UEFloat.zero_lt_one_sub (T : UEFloat) (hT : T.lt (.fin 1) = true) :
    (UEFloat.fin 0).lt ((UEFloat.fin 1).sub T) = true := by
  rcases T with t | _ | _ | _ <;>
    simp only [UEFloat.lt, UEFloat.sub, UEFloat.add, UEFloat.neg, decide_eq_true_eq,
      Bool.false_eq_true] at *
  linarith

/-- From a frame fraction of minus infinity the clamped stored fraction is 0. -/
theorem interpolate_blocked (St : RayLoopState) (bReset : Bool) (D : UEFloat)
    (hD : InUnitRange D) (hraw : St.DistBlockedPctThisFrame = .negInf)
    (hhard : St.HardBlockedPct = .negInf) :
    FMath.Clamp (interpolate bReset D St) (.fin 0) (.fin 1) = .fin 0 := by
  obtain ⟨L, raw, H, X⟩ := St
  simp only at hraw hhard
  subst hraw hhard
  obtain ⟨h0, h1⟩ := hD
  cases bReset with
  | true => simp [interpolate, FMath.Clamp_negInf]
  | false =>
    rcases D with d | _ | _ | _ <;>
      simp only [UEFloat.le, decide_eq_true_eq, Bool.false_eq_true] at h0 h1
    simp [interpolate, UEFloat.lt, UEFloat.gt, FMath.Clamp_negInf]

/-- C8. Scenario B: when ray 0 has a blocking hit nearer to `SafeLoc` than
`CollisionPushOutDistance`, then for every previous `DistBlockedPct` in [0,1], either
reset flag and either ray mode `PreventCameraPenetration` leaves `DistBlockedPct` equal
to 0 and sets `CameraLoc` to `SafeLoc`.  The ray has length zero, the two locations have
finite coordinates and `ZERO_ANIMWEIGHT_THRESH` is below 1. -/
theorem C8_near_wall_pulls_to_safe (W : UWorld) (P : UEFloat) (bReset : Bool)
    (VT : AActor) (S C : FVector) (D : UEFloat) (bSingle : Bool) (A : AActor)
    (hlen : W.Size (S.sub S) = .fin 0)
    (hT : W.ZERO_ANIMWEIGHT_THRESH.lt (.fin 1) = true)
    (hS : S.IsFinite = true) (hC : C.IsFinite = true) (hD : InUnitRange D)
    (hhit : (W.SweepSingleByChannel 0 S S [VT]).1 = true)
    (hactor : (W.SweepSingleByChannel 0 S S [VT]).2.Actor = some A)
    (hblock : bIgnoreHit W VT A (W.SweepSingleByChannel 0 S S [VT]).2 = false)
    (hnear : (W.Size ((W.SweepSingleByChannel 0 S S [VT]).2.Location.sub S)).lt P = true) :
    PreventCameraPenetration W P bReset VT S C D bSingle = ⟨S, .fin 0⟩ := by
  have h1 : (rayLoopUpTo W P VT S D 1).DistBlockedPctThisFrame = .negInf := by
    rw [rayLoopUpTo_succ, rayLoopUpTo_zero, rayStep_frame,
      sweepRay_blocking W P VT S (rayLoopInit VT D) 0 A hhit hactor hblock]
    simp only [rayLoopInit]
    unfold NewBlockPct
    rw [hlen, UEFloat.sub_div_zero_of_lt _ _ hnear]
    simp [FMath.Min, UEFloat.lt]
  have hn : ∃ m, NumRaysToShoot bSingle = 1 + m ∧ NumRaysToShoot bSingle = m + 1 := by
    cases bSingle
    · exact ⟨3, rfl, rfl⟩
    · exact ⟨0, rfl, rfl⟩
  obtain ⟨m, hm, hm1⟩ := hn
  have hraw : (rayLoop W P VT S D bSingle).DistBlockedPctThisFrame = .negInf := by
    unfold rayLoop
    rw [hm]
    exact rayLoopUpTo_frame_negInf W P VT S D 1 h1 m
  have hhard : (rayLoop W P VT S D bSingle).HardBlockedPct = .negInf := by
    unfold rayLoop
    rw [hm1, rayLoopUpTo_hard]
    exact h1
  unfold PreventCameraPenetration finish
  simp only
  rw [interpolate_blocked _ bReset D hD hraw hhard, UEFloat.zero_lt_one_sub _ hT]
  simp [FVector.add_scale_zero S C hS hC]

/-- C8 on the wall one unit from `SafeLoc` with a push-out distance of 2, from a stored
fraction of 1.0 with four rays. -/
theorem C8_near_wall_witness :
    PreventCameraPenetration nearWallScene (.fin 2) false 1 originLoc desiredLoc (.fin 1)
      false = ⟨originLoc, .fin 0⟩ :=
  C8_near_wall_pulls_to_safe nearWallScene (.fin 2) false 1 originLoc desiredLoc (.fin 1)
    false 5
    (by norm_num [nearWallScene, sceneWorld, axisSize, originLoc, FVector.ofRat,
      FVector.sub, UEFloat.sub, UEFloat.add, UEFloat.neg])
    (by norm_num [nearWallScene, sceneWorld, UEFloat.lt])
    (by simp [originLoc, FVector.ofRat, FVector.IsFinite, UEFloat.IsFinite])
    (by simp [desiredLoc, FVector.ofRat, FVector.IsFinite, UEFloat.IsFinite])
    ⟨by norm_num [UEFloat.le], by norm_num [UEFloat.le]⟩
    (by simp [nearWallScene, sceneWorld, hitAt])
    (by simp [nearWallScene, sceneWorld, hitAt])
    (by simp [bIgnoreHit, nearWallScene, sceneWorld])
    (by norm_num [nearWallScene, sceneWorld, hitAt, axisSize, originLoc, FVector.ofRat,
      FVector.sub, UEFloat.sub, UEFloat.add, UEFloat.neg, UEFloat.lt])

/-- C9. Final camera location: with `f` the stored fraction that the call returns, which
is the updated fraction clamped to [0,1], `CameraLoc` is
`SafeLoc + (CameraLoc - SafeLoc) * f` when `f < 1 - ZERO_ANIMWEIGHT_THRESH` and the desired
location, untouched, otherwise.  `SafeLoc` is a constant reference and no output of the
call. -/
theorem C9_final_camera_location (W : UWorld) (P : UEFloat) (bReset : Bool) (VT : AActor)
    (S C : FVector) (D : UEFloat) (bSingle : Bool) :
    (PreventCameraPenetration W P bReset VT S C D bSingle).DistBlockedPct =
      FMath.Clamp (interpolate bReset D (rayLoop W P VT S D bSingle)) (.fin 0) (.fin 1) ∧
    (PreventCameraPenetration W P bReset VT S C D bSingle).CameraLoc =
      if (PreventCameraPenetration W P bReset VT S C D bSingle).DistBlockedPct.lt
          ((UEFloat.fin 1).sub W.ZERO_ANIMWEIGHT_THRESH) then
        S.add ((C.sub S).scale
          (PreventCameraPenetration W P bReset VT S C D bSingle).DistBlockedPct)
      else C := by
  refine ⟨PreventCameraPenetration_fraction W P bReset VT S C D bSingle, ?_⟩
  rw [PreventCameraPenetration_fraction]
  unfold PreventCameraPenetration finish
  simp only
  split_ifs <;> rfl


/-- The frame update when it reaches line 124. -/
theorem UpdatePreventPenetration_detector (W : UWorld) (H : UCameraHost)
    (M : UCameraMode_Fixed) (PP : AActor) (Root : UPrimitiveComponent)
    (hb : M.bPreventPenetration = true) (hpp : PPActorOf H = some PP)
    (hroot : H.GetRootPrimitiveComponent PP = some Root) :
    UpdatePreventPenetration W H M =
      some (withPenetrationResult M (detectorResult W H M PP Root),
        notifyAssists
          ((detectorResult W H M PP Root).DistBlockedPct.lt M.ReportPenetrationPercent)
          (TargetControllerAssistOf H) (TargetActorAssistOf H) (PPActorAssistOf H)) := by
  have hpp2 := hpp
  unfold PPActorOf OptionalPPTargetOf at hpp2
  unfold UpdatePreventPenetration withPenetrationResult detectorResult SafeLocationOf
    ClampedSafeLocation ClosestPointOnLineToCapsuleCenterOf TargetControllerAssistOf
    TargetControllerOf TargetActorAssistOf PPActorAssistOf PPActorOf OptionalPPTargetOf
  simp only [hb, Bool.not_true, Bool.false_eq_true, if_false]
  rw [hpp2]
  simp only [hroot]


/-- The frame update when `bPreventPenetration` is false. -/
theorem UpdatePreventPenetration_disabled (W : UWorld) (H : UCameraHost)
    (M : UCameraMode_Fixed) (hb : M.bPreventPenetration = false) :
    UpdatePreventPenetration W H M = some (M, []) := by
  unfold UpdatePreventPenetration
  simp [hb]

/-- The frame update when the root component of the anchor actor is not a primitive
component. -/
theorem UpdatePreventPenetration_noRoot (W : UWorld) (H : UCameraHost)
    (M : UCameraMode_Fixed) (PP : AActor) (hb : M.bPreventPenetration = true)
    (hpp : PPActorOf H = some PP) (hroot : H.GetRootPrimitiveComponent PP = none) :
    UpdatePreventPenetration W H M = some (M, []) := by
  have hpp2 := hpp
  unfold PPActorOf OptionalPPTargetOf at hpp2
  unfold UpdatePreventPenetration
  simp only [hb, Bool.not_true, Bool.false_eq_true, if_false]
  rw [hpp2]
  simp only [hroot]

/-- The frame update when there is no anchor actor: line 106 dereferences the null
pointer. -/
theorem UpdatePreventPenetration_noAnchor (W : UWorld) (H : UCameraHost)
    (M : UCameraMode_Fixed) (hb : M.bPreventPenetration = true)
    (hpp : PPActorOf H = none) : UpdatePreventPenetration W H M = none := by
  have hpp2 := hpp
  unfold PPActorOf OptionalPPTargetOf at hpp2
  unfold UpdatePreventPenetration
  simp only [hb, Bool.not_true, Bool.false_eq_true, if_false]
  rw [hpp2]

/-- The collaborators notified when the report test passes are the non-null entries of
`AssistArray`, in its order. -/
theorem notifyAssists_true (a b c : Bool) (H : UCameraHost)
    (ha : TargetControllerAssistOf H = a) (hb : TargetActorAssistOf H = b)
    (hc : PPActorAssistOf H = c) :
    notifyAssists true a b c =
      [ECameraAssist.TargetControllerAssist, ECameraAssist.TargetActorAssist,
        ECameraAssist.PPActorAssist].filter (AssistArrayHas H) := by
  subst ha hb hc
  simp only [notifyAssists, if_true, List.filter, AssistArrayHas]
  cases TargetControllerAssistOf H <;> cases TargetActorAssistOf H <;>
    cases PPActorAssistOf H <;> rfl

/-! ## Properties of hit filtering and of the frame update -/

/-- C11. A hit on an actor that carries the tag `IgnoreCameraCollision`, whatever its
class and wherever the hit lies, is ignored: after the pass of that ray the frame's raw
fraction, `HardBlockedPct` and `SoftBlockedPct` are what they are in a scene whose sweep
of that ray reports no hit, and the actor is in the ignore set of every later sweep. -/
theorem C11_tagged_actor_ignored (W Wno : UWorld) (P : UEFloat) (VT : AActor)
    (S : FVector) (D : UEFloat) (k : ℕ) (A : AActor)
    (hhit : (raySweep W P VT S D k).1 = true)
    (hactor : (raySweep W P VT S D k).2.Actor = some A)
    (htag : W.ActorHasTag A NAME_IgnoreCameraCollision = true)
    (hno : (Wno.SweepSingleByChannel k S S (rayLoopUpTo W P VT S D k).SphereParams).1
      = false) :
    (rayLoopUpTo W P VT S D (k + 1)).DistBlockedPctThisFrame =
        (rayStep Wno P VT S (rayLoopUpTo W P VT S D k) k).DistBlockedPctThisFrame ∧
    (rayLoopUpTo W P VT S D (k + 1)).HardBlockedPct =
        (rayStep Wno P VT S (rayLoopUpTo W P VT S D k) k).HardBlockedPct ∧
    (rayLoopUpTo W P VT S D (k + 1)).SoftBlockedPct =
        (rayStep Wno P VT S (rayLoopUpTo W P VT S D k) k).SoftBlockedPct ∧
    (rayLoopUpTo W P VT S D (k + 1)).DistBlockedPctThisFrame =
        (rayLoopUpTo W P VT S D k).DistBlockedPctThisFrame ∧
    (rayLoopUpTo W P VT S D (k + 1)).SphereParams =
        (rayLoopUpTo W P VT S D k).SphereParams ++ [A] ∧
    ∀ j, k < j → A ∈ (rayLoopUpTo W P VT S D j).SphereParams := by
  unfold raySweep at hhit hactor
  have hign : bIgnoreHit W VT A (W.SweepSingleByChannel k S S
      (rayLoopUpTo W P VT S D k).SphereParams).2 = true := by
    simp [bIgnoreHit, htag]
  have hs := sweepRay_ignored W P VT S _ k A hhit hactor hign
  have hn := sweepRay_noHit Wno P VT S _ k hno
  have hp : (rayLoopUpTo W P VT S D (k + 1)).SphereParams =
      (rayLoopUpTo W P VT S D k).SphereParams ++ [A] := by
    rw [rayLoopUpTo_succ, rayStep_params, hs]
  refine ⟨?_, ?_, ?_, ?_, hp, ?_⟩
  · rw [rayLoopUpTo_succ, rayStep_frame, rayStep_frame, hs, hn]
  · rw [rayLoopUpTo_succ]
    unfold rayStep recordRay
    rw [hs, hn]
    split_ifs <;> rfl
  · rw [rayLoopUpTo_succ]
    unfold rayStep recordRay
    rw [hs, hn]
    split_ifs <;> rfl
  · rw [rayLoopUpTo_succ, rayStep_frame, hs]
  · intro j hj
    apply rayLoopUpTo_params_mono W P VT S D A (k + 1) _ j hj
    rw [hp]
    simp

/-- C11 on a camera blocking volume (actor 9) that carries the tag and is hit one unit
behind the view target: the first ray leaves the raw fraction at 1.0, as in the empty
scene, and every later ray ignores actor 9. -/
theorem C11_tagged_actor_witness :
    (rayLoopUpTo taggedVolumeScene (.fin 2) 1 originLoc (.fin 1) (0 + 1)).DistBlockedPctThisFrame
        = .fin 1 ∧
    ∀ j, 0 < j → 9 ∈ (rayLoopUpTo taggedVolumeScene (.fin 2) 1 originLoc (.fin 1) j).SphereParams :=
  ⟨((C11_tagged_actor_ignored taggedVolumeScene emptyScene (.fin 2) 1 originLoc (.fin 1) 0 9
      (by simp [raySweep, taggedVolumeScene, sceneWorld, hitAt])
      (by simp [raySweep, taggedVolumeScene, sceneWorld, hitAt])
      (by simp [taggedVolumeScene, sceneWorld])
      (by simp [emptyScene, sceneWorld, noHit])).2.2.2.1).trans
      (by simp [rayLoopUpTo, rayLoopInit]),
    (C11_tagged_actor_ignored taggedVolumeScene emptyScene (.fin 2) 1 originLoc (.fin 1) 0 9
      (by simp [raySweep, taggedVolumeScene, sceneWorld, hitAt])
      (by simp [raySweep, taggedVolumeScene, sceneWorld, hitAt])
      (by simp [taggedVolumeScene, sceneWorld])
      (by simp [emptyScene, sceneWorld, noHit])).2.2.2.2.2⟩

/-- C12. Penetration report: in a frame in which `UpdatePreventPenetration` reaches the
call of `PreventCameraPenetration`, the call returns, and `OnCameraPenetratingTarget` is
called on a collaborator exactly when the resulting `AimLineToDesiredPosBlockedPct` is
strictly below `ReportPenetrationPercent` and that collaborator's entry of `AssistArray`
is non-null; below the threshold the calls are the non-null entries in the order of the
array, otherwise there is none. -/
theorem C12_penetration_report (W : UWorld) (H : UCameraHost) (M : UCameraMode_Fixed)
    (PP : AActor) (Root : UPrimitiveComponent)
    (hb : M.bPreventPenetration = true) (hpp : PPActorOf H = some PP)
    (hroot : H.GetRootPrimitiveComponent PP = some Root) :
    ∃ N L, UpdatePreventPenetration W H M = some (N, L) ∧
      N.AimLineToDesiredPosBlockedPct = (detectorResult W H M PP Root).DistBlockedPct ∧
      (N.AimLineToDesiredPosBlockedPct.lt M.ReportPenetrationPercent = true →
        L = [ECameraAssist.TargetControllerAssist, ECameraAssist.TargetActorAssist,
          ECameraAssist.PPActorAssist].filter (AssistArrayHas H)) ∧
      (N.AimLineToDesiredPosBlockedPct.lt M.ReportPenetrationPercent = false → L = []) ∧
      ∀ c : ECameraAssist, c ∈ L ↔
        (N.AimLineToDesiredPosBlockedPct.lt M.ReportPenetrationPercent = true ∧
          AssistArrayHas H c = true) := by
  refine ⟨_, _, UpdatePreventPenetration_detector W H M PP Root hb hpp hroot, rfl, ?_, ?_, ?_⟩
  · intro hlt
    show notifyAssists ((detectorResult W H M PP Root).DistBlockedPct.lt
      M.ReportPenetrationPercent) _ _ _ = _
    have hlt2 : (detectorResult W H M PP Root).DistBlockedPct.lt
        M.ReportPenetrationPercent = true := hlt
    rw [hlt2]
    exact notifyAssists_true _ _ _ H rfl rfl rfl
  · intro hlt
    have hlt2 : (detectorResult W H M PP Root).DistBlockedPct.lt
        M.ReportPenetrationPercent = false := hlt
    rw [hlt2]
    rfl
  · intro c
    show c ∈ notifyAssists ((detectorResult W H M PP Root).DistBlockedPct.lt
      M.ReportPenetrationPercent) _ _ _ ↔
      ((detectorResult W H M PP Root).DistBlockedPct.lt M.ReportPenetrationPercent = true ∧ _)
    cases hlt : (detectorResult W H M PP Root).DistBlockedPct.lt M.ReportPenetrationPercent
    · simp [notifyAssists]
    · rw [notifyAssists_true _ _ _ H rfl rfl rfl]
      cases c <;> simp [AssistArrayHas]


/-- C12 on the wall nearer than the push-out distance with a report threshold of 0.5: the
stored fraction becomes 0 and the controller, the target actor and the nominated anchor
actor are notified, in this order. -/
theorem C12_penetration_witness :
    ∃ N L, UpdatePreventPenetration nearWallScene (demoHost (some 1) queryKeeps)
        (demoMode desiredLoc (.fin 1) (.fin (1 / 2))) = some (N, L) ∧
      L = [ECameraAssist.TargetControllerAssist, ECameraAssist.TargetActorAssist,
        ECameraAssist.PPActorAssist] := by
  obtain ⟨N, L, hU, hN, h1, _, _⟩ :=
    C12_penetration_report nearWallScene (demoHost (some 1) queryKeeps)
      (demoMode desiredLoc (.fin 1) (.fin (1 / 2))) 3 7 rfl rfl rfl
  refine ⟨N, L, hU, ?_⟩
  have hlt : N.AimLineToDesiredPosBlockedPct.lt
      (demoMode desiredLoc (.fin 1) (.fin (1 / 2))).ReportPenetrationPercent = true := by
    rw [hN]
    norm_num [detectorResult, SafeLocationOf, ClampedSafeLocation,
      ClosestPointOnLineToCapsuleCenterOf, demoHost, demoMode, queryKeeps, desiredLoc,
      PreventCameraPenetration, finish, interpolate, rayLoop, NumRaysToShoot,
      rayLoopUpTo, List.range_succ, rayLoopInit, rayStep,
      sweepRay, recordRay, nearWallScene, sceneWorld, hitAt, bIgnoreHit, NewBlockPct,
      NAME_IgnoreCameraCollision, axisSize, FVector.ofRat, FVector.sub,
      UEFloat.sub, UEFloat.add, UEFloat.neg, UEFloat.div, FMath.Min, FMath.Max, FMath.Clamp,
      UEFloat.lt, UEFloat.gt]
  rw [h1 hlt]
  rfl

/-- C13. Skip path: with `bPreventPenetration` false, and with an anchor actor whose root
component is not a primitive component, `UpdatePreventPenetration` returns with the
camera mode as it was, whatever the scene, and notifies nobody.  With no anchor actor the
call does not come to that: in the empty scene a constructed camera mode whose host has
no target actor dereferences the null `PPActor` at line 106. -/
theorem C13_skip_path :
    (∀ (W : UWorld) (H : UCameraHost) (M : UCameraMode_Fixed),
      M.bPreventPenetration = false → UpdatePreventPenetration W H M = some (M, [])) ∧
    (∀ (W : UWorld) (H : UCameraHost) (M : UCameraMode_Fixed) (PP : AActor),
      M.bPreventPenetration = true → PPActorOf H = some PP →
      H.GetRootPrimitiveComponent PP = none →
      UpdatePreventPenetration W H M = some (M, [])) ∧
    PPActorOf (demoHost none queryKeeps) = none ∧
    UpdatePreventPenetration emptyScene (demoHost none queryKeeps)
      (demoMode desiredLoc (.fin 0) (.fin 0)) = none :=
  ⟨UpdatePreventPenetration_disabled, UpdatePreventPenetration_noRoot, rfl,
    UpdatePreventPenetration_noAnchor _ _ _ rfl rfl⟩

/-- C14, as stated, fails: with a side query that leaves the queried point in its third
argument, the `SafeLocation` handed on is the closest point on the aim line, `(0, 0, 20)`,
not the clamped anchor `(0, 0, 8)`, and the frame differs from the frame of a query that
leaves the argument alone: the camera is pulled to `(0, 0, 20)` with fraction 0 instead of
staying at its desired location with fraction 1. -/
theorem C14_safe_location_counterexample :
    SafeLocationOf highWallScene (demoHost (some 1) queryWritesPoint)
        (demoMode highViewLoc (.fin 1) (.fin 0)) 3 7 = FVector.ofRat 0 0 20 ∧
    ClampedSafeLocation highWallScene (demoHost (some 1) queryWritesPoint)
        (demoMode highViewLoc (.fin 1) (.fin 0)) 3 = FVector.ofRat 0 0 8 ∧
    UpdatePreventPenetration highWallScene (demoHost (some 1) queryWritesPoint)
        (demoMode highViewLoc (.fin 1) (.fin 0)) =
      some (withPenetrationResult (demoMode highViewLoc (.fin 1) (.fin 0))
        ⟨FVector.ofRat 0 0 20, .fin 0⟩, []) ∧
    UpdatePreventPenetration highWallScene (demoHost (some 1) queryKeeps)
        (demoMode highViewLoc (.fin 1) (.fin 0)) =
      some (withPenetrationResult (demoMode highViewLoc (.fin 1) (.fin 0))
        ⟨highViewLoc, .fin 1⟩, []) := by
  have e1 : SafeLocationOf highWallScene (demoHost (some 1) queryWritesPoint)
      (demoMode highViewLoc (.fin 1) (.fin 0)) 3 7 = FVector.ofRat 0 0 20 := by
    norm_num [SafeLocationOf, ClampedSafeLocation, ClosestPointOnLineToCapsuleCenterOf,
      demoHost, demoMode, queryWritesPoint, highViewLoc, highWallScene, sceneWorld,
      FVector.ofRat]
  have e2 : SafeLocationOf highWallScene (demoHost (some 1) queryKeeps)
      (demoMode highViewLoc (.fin 1) (.fin 0)) 3 7 = FVector.ofRat 0 0 8 := by
    norm_num [SafeLocationOf, ClampedSafeLocation, ClosestPointOnLineToCapsuleCenterOf,
      demoHost, demoMode, queryKeeps, highViewLoc, highWallScene, sceneWorld,
      FVector.ofRat, FMath.Clamp, FMath.Min, FMath.Max, UEFloat.sub, UEFloat.add,
      UEFloat.neg, UEFloat.lt]
  refine ⟨e1, ?_, ?_, ?_⟩
  · norm_num [ClampedSafeLocation, ClosestPointOnLineToCapsuleCenterOf,
      demoHost, demoMode, highViewLoc, highWallScene, sceneWorld,
      FVector.ofRat, FMath.Clamp, FMath.Min, FMath.Max, UEFloat.sub, UEFloat.add,
      UEFloat.neg, UEFloat.lt]
  · rw [UpdatePreventPenetration_detector highWallScene (demoHost (some 1) queryWritesPoint)
      (demoMode highViewLoc (.fin 1) (.fin 0)) 3 7 rfl rfl rfl]
    unfold detectorResult
    rw [e1]
    norm_num [demoMode, notifyAssists,
      PreventCameraPenetration, finish, interpolate, rayLoop, NumRaysToShoot,
      rayLoopUpTo, List.range_succ, rayLoopInit, rayStep,
      sweepRay, recordRay, highWallScene, sceneWorld, bIgnoreHit, NewBlockPct,
      NAME_IgnoreCameraCollision, axisSize, highViewLoc, FVector.ofRat, FVector.sub,
      FVector.add, FVector.scale, UEFloat.mul,
      UEFloat.sub, UEFloat.add, UEFloat.neg, UEFloat.div, FMath.Min, FMath.Max, FMath.Clamp,
      UEFloat.lt, UEFloat.gt]
  · rw [UpdatePreventPenetration_detector highWallScene (demoHost (some 1) queryKeeps)
      (demoMode highViewLoc (.fin 1) (.fin 0)) 3 7 rfl rfl rfl]
    unfold detectorResult
    rw [e2]
    norm_num [demoMode, notifyAssists,
      PreventCameraPenetration, finish, interpolate, rayLoop, NumRaysToShoot,
      rayLoopUpTo, List.range_succ, rayLoopInit, rayStep,
      sweepRay, recordRay, highWallScene, sceneWorld, bIgnoreHit, NewBlockPct,
      NAME_IgnoreCameraCollision, axisSize, highViewLoc, FVector.ofRat, FVector.sub,
      FVector.add, FVector.scale, UEFloat.mul,
      UEFloat.sub, UEFloat.add, UEFloat.neg, UEFloat.div, FMath.Min, FMath.Max, FMath.Clamp,
      UEFloat.lt, UEFloat.gt]

/-- C14, amended. Safe-location anchor: when `UpdatePreventPenetration` reaches line 124
it passes to `PreventCameraPenetration`, as `SafeLoc`, the value that the side query
`GetSquaredDistanceToCollision` leaves in its third argument; the query is called with
the closest point on the aim line and with that argument holding the anchor actor's
location with only its Z replaced by `Clamp` of the Z of the closest point on the aim
line between Z - (half height - `CollisionPushOutDistance`) and
Z + (half height - `CollisionPushOutDistance`).  `SafeLoc` is that clamped anchor when
the query leaves its third argument as it was. -/
theorem C14_safe_location (W : UWorld) (H : UCameraHost) (M : UCameraMode_Fixed)
    (PP : AActor) (Root : UPrimitiveComponent)
    (hb : M.bPreventPenetration = true) (hpp : PPActorOf H = some PP)
    (hroot : H.GetRootPrimitiveComponent PP = some Root) :
    (∃ N L, UpdatePreventPenetration W H M = some (N, L) ∧
      N = withPenetrationResult M
        (PreventCameraPenetration W M.CollisionPushOutDistance M.bResetInterpolation PP
          (SafeLocationOf W H M PP Root) M.View.Location
          M.AimLineToDesiredPosBlockedPct true)) ∧
    SafeLocationOf W H M PP Root =
      H.GetSquaredDistanceToCollision Root
        (H.PointDistToLine (W.GetActorLocation PP) (H.RotatorVector M.View.Rotation)
          M.View.Location)
        ⟨(W.GetActorLocation PP).X, (W.GetActorLocation PP).Y,
          FMath.Clamp
            (H.PointDistToLine (W.GetActorLocation PP) (H.RotatorVector M.View.Rotation)
              M.View.Location).Z
            ((W.GetActorLocation PP).Z.sub
              ((H.GetSimpleCollisionHalfHeight PP).sub M.CollisionPushOutDistance))
            ((W.GetActorLocation PP).Z.add
              ((H.GetSimpleCollisionHalfHeight PP).sub M.CollisionPushOutDistance))⟩ ∧
    ((∀ Point Held : FVector, H.GetSquaredDistanceToCollision Root Point Held = Held) →
      SafeLocationOf W H M PP Root =
        ⟨(W.GetActorLocation PP).X, (W.GetActorLocation PP).Y,
          FMath.Clamp
            (H.PointDistToLine (W.GetActorLocation PP) (H.RotatorVector M.View.Rotation)
              M.View.Location).Z
            ((W.GetActorLocation PP).Z.sub
              ((H.GetSimpleCollisionHalfHeight PP).sub M.CollisionPushOutDistance))
            ((W.GetActorLocation PP).Z.add
              ((H.GetSimpleCollisionHalfHeight PP).sub M.CollisionPushOutDistance))⟩) := by
  refine ⟨⟨_, _, UpdatePreventPenetration_detector W H M PP Root hb hpp hroot, rfl⟩, rfl, ?_⟩
  intro hkeep
  unfold SafeLocationOf
  rw [hkeep]
  rfl

/-- The amended C14 on the host whose side query leaves its argument as it was: the
frame update returns and the `SafeLoc` it hands on is the clamped anchor `(0, 0, 8)`. -/
theorem C14_safe_location_witness :
    (∃ N L, UpdatePreventPenetration highWallScene (demoHost (some 1) queryKeeps)
        (demoMode highViewLoc (.fin 1) (.fin 0)) = some (N, L)) ∧
    SafeLocationOf highWallScene (demoHost (some 1) queryKeeps)
        (demoMode highViewLoc (.fin 1) (.fin 0)) 3 7 = FVector.ofRat 0 0 8 := by
  obtain ⟨⟨N, L, hU, _⟩, _, h3⟩ :=
    C14_safe_location highWallScene (demoHost (some 1) queryKeeps)
      (demoMode highViewLoc (.fin 1) (.fin 0)) 3 7 rfl rfl rfl
  refine ⟨⟨N, L, hU⟩, ?_⟩
  rw [h3 (fun _ _ => rfl)]
  norm_num [demoHost, demoMode, highViewLoc, highWallScene, sceneWorld,
    FVector.ofRat, FMath.Clamp, FMath.Min, FMath.Max, UEFloat.sub, UEFloat.add,
    UEFloat.neg, UEFloat.lt]


/-- What a sweep does to the ignored actors and to the frame fraction depends on these
two locals only. -/
theorem sweepRay_congr (W : UWorld) (P : UEFloat) (VT : AActor) (S : FVector)
    (St St2 : RayLoopState) (k : ℕ) (hp : St.SphereParams = St2.SphereParams)
    (hf : St.DistBlockedPctThisFrame = St2.DistBlockedPctThisFrame) :
    (sweepRay W P VT S St k).SphereParams = (sweepRay W P VT S St2 k).SphereParams ∧
    (sweepRay W P VT S St k).DistBlockedPctThisFrame =
      (sweepRay W P VT S St2 k).DistBlockedPctThisFrame := by
  obtain ⟨L, t, h, s⟩ := St
  obtain ⟨L2, t2, h2, s2⟩ := St2
  simp only at hp hf
  subst hp hf
  unfold sweepRay
  simp only
  split
  · split_ifs
    · exact ⟨rfl, rfl⟩
    · exact ⟨rfl, rfl⟩
  · exact ⟨rfl, rfl⟩

/-- The ignored actors and the frame fraction do not depend on the stored fraction. -/
theorem rayLoopUpTo_indep (W : UWorld) (P : UEFloat) (VT : AActor) (S : FVector)
    (D D2 : UEFloat) (n : ℕ) :
    (rayLoopUpTo W P VT S D n).SphereParams = (rayLoopUpTo W P VT S D2 n).SphereParams ∧
    (rayLoopUpTo W P VT S D n).DistBlockedPctThisFrame =
      (rayLoopUpTo W P VT S D2 n).DistBlockedPctThisFrame := by
  induction n with
  | zero => simp [rayLoopUpTo_zero, rayLoopInit]
  | succ n ih =>
    rw [rayLoopUpTo_succ, rayLoopUpTo_succ, rayStep_params, rayStep_params, rayStep_frame,
      rayStep_frame]
    exact sweepRay_congr W P VT S _ _ n ih.1 ih.2

/-- C15, as stated, fails in single-ray mode: in the empty scene a first run from a stored
fraction of 0.3 stores 1.0, and `SoftBlockedPct` at the end of the ray loop is 0.3 in the
first run and 1.0 in the second. -/
theorem C15_determinism_counterexample :
    (PreventCameraPenetration emptyScene (.fin 2) false 1 originLoc desiredLoc
        (.fin (3 / 10)) true).DistBlockedPct = .fin 1 ∧
    (rayLoop emptyScene (.fin 2) 1 originLoc (.fin (3 / 10)) true).SoftBlockedPct =
        .fin (3 / 10) ∧
    (rayLoop emptyScene (.fin 2) 1 originLoc (.fin 1) true).SoftBlockedPct = .fin 1 ∧
    (UEFloat.fin (3 / 10) ≠ .fin 1) := by
  refine ⟨?_, ?_, ?_, ?_⟩
  · norm_num [PreventCameraPenetration, finish, interpolate, rayLoop, NumRaysToShoot,
      rayLoopUpTo, List.range_succ, rayLoopInit, rayStep, sweepRay, recordRay, emptyScene,
      sceneWorld, noHit, FMath.Min, FMath.Max, FMath.Clamp, UEFloat.lt, UEFloat.sub,
      UEFloat.add, UEFloat.neg]
  · simp [rayLoop, NumRaysToShoot, rayLoopUpTo, List.range_succ, rayLoopInit, rayStep,
      sweepRay, recordRay, emptyScene, sceneWorld, noHit]
  · simp [rayLoop, NumRaysToShoot, rayLoopUpTo, List.range_succ, rayLoopInit, rayStep,
      sweepRay, recordRay, emptyScene, sceneWorld, noHit]
  · norm_num

/-- C15, amended. Detector determinism: for the same scene, `ViewTarget`, `SafeLoc` and
ray mode, two runs of the ray loop from any two stored fractions, in particular from a
stored fraction and from the one that a first run leaves, end with the same
`DistBlockedPctThisFrame` and the same `HardBlockedPct`, and in four-ray mode with the
same `SoftBlockedPct`; in single-ray mode the loop does not write `SoftBlockedPct`, which
is still the stored `DistBlockedPct` of the run. -/
theorem C15_raw_fractions_determined (W : UWorld) (P : UEFloat) (VT : AActor)
    (S : FVector) (D D2 : UEFloat) (bSingle : Bool) :
    (rayLoop W P VT S D bSingle).DistBlockedPctThisFrame =
        (rayLoop W P VT S D2 bSingle).DistBlockedPctThisFrame ∧
    (rayLoop W P VT S D bSingle).HardBlockedPct =
        (rayLoop W P VT S D2 bSingle).HardBlockedPct ∧
    (bSingle = false →
      (rayLoop W P VT S D bSingle).SoftBlockedPct =
        (rayLoop W P VT S D2 bSingle).SoftBlockedPct) ∧
    (bSingle = true → (rayLoop W P VT S D bSingle).SoftBlockedPct = D) := by
  have hf : ∀ n, (rayLoopUpTo W P VT S D n).DistBlockedPctThisFrame =
      (rayLoopUpTo W P VT S D2 n).DistBlockedPctThisFrame :=
    fun n => (rayLoopUpTo_indep W P VT S D D2 n).2
  have hn : ∃ m, NumRaysToShoot bSingle = m + 1 := by
    cases bSingle
    · exact ⟨3, rfl⟩
    · exact ⟨0, rfl⟩
  obtain ⟨m, hm⟩ := hn
  refine ⟨hf _, ?_, ?_, ?_⟩
  · unfold rayLoop
    rw [hm, rayLoopUpTo_hard, rayLoopUpTo_hard]
    exact hf 1
  · intro hb
    subst hb
    show (rayLoopUpTo W P VT S D (3 + 1)).SoftBlockedPct =
      (rayLoopUpTo W P VT S D2 (3 + 1)).SoftBlockedPct
    rw [rayLoopUpTo_succ, rayLoopUpTo_succ, rayStep_soft, rayStep_soft]
    simp only [OfNat.ofNat_ne_zero, if_false]
    rw [← rayLoopUpTo_succ, ← rayLoopUpTo_succ]
    exact hf 4
  · intro hb
    subst hb
    show (rayLoopUpTo W P VT S D (0 + 1)).SoftBlockedPct = D
    rw [rayLoopUpTo_succ, rayStep_soft, rayLoopUpTo_zero]
    rfl

/-- The ignored actors after the sweep of a ray in the loop. -/
theorem sweepRay_params_ignored (W : UWorld) (P : UEFloat) (VT : AActor) (S : FVector)
    (D : UEFloat) (k : ℕ) :
    (sweepRay W P VT S (rayLoopUpTo W P VT S D k) k).SphereParams =
      (rayLoopUpTo W P VT S D k).SphereParams ++ (ignoredActorOf W P VT S D k).toList := by
  unfold sweepRay ignoredActorOf raySweep
  simp only
  split
  · split_ifs <;> simp
  · simp

/-- In single-ray mode, where `HardBlockedPct` is the raw fraction and `SoftBlockedPct`
the stored one, lines 250-268 leave the raw fraction, unless the stored value is NaN
while the reset flag is clear. -/
theorem interpolate_single (L : List AActor) (bReset : Bool) (D raw : UEFloat)
    (hD : bReset = true ∨ D ≠ .nan) (hraw : raw.le (.fin 1) = true) :
    interpolate bReset D ⟨L, raw, raw, D⟩ = raw := by
  cases bReset with
  | true => simp [interpolate]
  | false =>
    have hD2 : D ≠ .nan := by
      rcases hD with h | h
      · exact absurd h (by simp)
      · exact h
    rcases D with d | _ | _ | _ <;> rcases raw with r | _ | _ | _ <;>
      simp only [UEFloat.le, decide_eq_true_eq, Bool.false_eq_true, ne_eq,
        not_true_eq_false] at hraw hD2 <;>
      simp only [interpolate, UEFloat.lt, UEFloat.gt, decide_eq_true_eq,
        Bool.false_eq_true, if_false, if_true, lt_self_iff_false]
    split_ifs with h1 h2
    · rfl
    · rfl
    · rw [le_antisymm (not_lt.mp h2) (not_lt.mp h1)]

/-- The outputs of lines 270-274 depend on the fraction only through its clamp. -/
theorem finish_congr (W : UWorld) (S C : FVector) (X Y : UEFloat)
    (h : FMath.Clamp X (.fin 0) (.fin 1) = FMath.Clamp Y (.fin 0) (.fin 1)) :
    finish W S C X = finish W S C Y := by
  unfold finish
  simp only
  rw [h]

/-- The locals at the end of the ray loop in single-ray mode. -/
theorem rayLoop_single (W : UWorld) (P : UEFloat) (VT : AActor) (S : FVector)
    (D : UEFloat) :
    rayLoop W P VT S D true =
      ⟨(rayLoop W P VT S D true).SphereParams,
        (rayLoop W P VT S D true).DistBlockedPctThisFrame,
        (rayLoop W P VT S D true).DistBlockedPctThisFrame, D⟩ := by
  have hh : (rayLoop W P VT S D true).HardBlockedPct =
      (rayLoop W P VT S D true).DistBlockedPctThisFrame := by
    show (rayLoopUpTo W P VT S D (0 + 1)).HardBlockedPct = _
    rw [rayLoopUpTo_hard]
    rfl
  have hs : (rayLoop W P VT S D true).SoftBlockedPct = D := by
    show (rayLoopUpTo W P VT S D (0 + 1)).SoftBlockedPct = D
    rw [rayLoopUpTo_succ, rayStep_soft, rayLoopUpTo_zero]
    rfl
  cases hst : rayLoop W P VT S D true with
  | mk L t h s =>
    rw [hst] at hh hs
    simp only at hh hs
    rw [hh, hs]

/-- C17. Single-ray mode is memoryless: when `bSingleRayOnly` is true the `DistBlockedPct`
left by `PreventCameraPenetration` is `Clamp(DistBlockedPctThisFrame, 0, 1)` for both
values of `bResetInterpolation` and every previous `DistBlockedPct` that is a number or
an infinity, as the stored fraction of every reachable camera mode is (a NaN is allowed
when the reset flag is set); among these calls the previous stored value and the reset
flag have no effect on the new stored fraction or on the returned `CameraLoc`. -/
theorem C17_single_ray_memoryless (W : UWorld) (P : UEFloat) (VT : AActor) (S C : FVector)
    (bReset bReset2 : Bool) (D D2 : UEFloat)
    (hD : bReset = true ∨ D ≠ .nan) (hD2 : bReset2 = true ∨ D2 ≠ .nan) :
    (PreventCameraPenetration W P bReset VT S C D true).DistBlockedPct =
      FMath.Clamp (rayLoop W P VT S D true).DistBlockedPctThisFrame (.fin 0) (.fin 1) ∧
    PreventCameraPenetration W P bReset VT S C D true =
      PreventCameraPenetration W P bReset2 VT S C D2 true := by
  have hc : ∀ (b : Bool) (X : UEFloat), (b = true ∨ X ≠ .nan) →
      FMath.Clamp (interpolate b X (rayLoop W P VT S X true)) (.fin 0) (.fin 1) =
        FMath.Clamp (rayLoop W P VT S X true).DistBlockedPctThisFrame (.fin 0) (.fin 1) := by
    intro b X hX
    rw [rayLoop_single W P VT S X]
    exact congrArg (fun Y => FMath.Clamp Y (.fin 0) (.fin 1))
      (interpolate_single _ b X _ hX
        (rayLoopUpTo_frame_le_one W P VT S X (NumRaysToShoot true)))
  constructor
  · rw [PreventCameraPenetration_fraction]
    exact hc bReset D hD
  · unfold PreventCameraPenetration
    simp only
    apply finish_congr
    rw [hc bReset D hD, hc bReset2 D2 hD2]
    exact congrArg (fun X => FMath.Clamp X (.fin 0) (.fin 1))
      (rayLoopUpTo_indep W P VT S D D2 (NumRaysToShoot true)).2

/-- C17 on the wall nearer than the push-out distance: a run from a stored
0.3 with the reset flag clear and a run from a stored 1.0 with the flag set return the
same. -/
theorem C17_single_ray_witness :
    PreventCameraPenetration nearWallScene (.fin 2) false 1 originLoc desiredLoc
        (.fin (3 / 10)) true =
      PreventCameraPenetration nearWallScene (.fin 2) true 1 originLoc desiredLoc
        (.fin 1) true :=
  (C17_single_ray_memoryless nearWallScene (.fin 2) 1 originLoc desiredLoc false true
    (.fin (3 / 10)) (.fin 1) (Or.inr (by simp)) (Or.inl rfl)).2

/-- With a report threshold of 0 a frame update that returns has notified nobody and
leaves the threshold at 0. -/
theorem UpdatePreventPenetration_report_zero (W : UWorld) (H : UCameraHost)
    (M N : UCameraMode_Fixed) (L : List ECameraAssist)
    (hM : M.ReportPenetrationPercent = .fin 0)
    (h : UpdatePreventPenetration W H M = some (N, L)) :
    L = [] ∧ N.ReportPenetrationPercent = .fin 0 := by
  cases hb : M.bPreventPenetration with
  | false =>
    rw [UpdatePreventPenetration_disabled W H M hb] at h
    simp only [Option.some.injEq, Prod.mk.injEq] at h
    exact ⟨h.2.symm, by rw [← h.1]; exact hM⟩
  | true =>
    cases hpp : PPActorOf H with
    | none =>
      rw [UpdatePreventPenetration_noAnchor W H M hb hpp] at h
      exact absurd h (by simp)
    | some PP =>
      cases hroot : H.GetRootPrimitiveComponent PP with
      | none =>
        rw [UpdatePreventPenetration_noRoot W H M PP hb hpp hroot] at h
        simp only [Option.some.injEq, Prod.mk.injEq] at h
        exact ⟨h.2.symm, by rw [← h.1]; exact hM⟩
      | some Root =>
        rw [UpdatePreventPenetration_detector W H M PP Root hb hpp hroot] at h
        simp only [Option.some.injEq, Prod.mk.injEq] at h
        obtain ⟨q, hq, h0, _⟩ := FMath.Clamp_unit_cases
          (interpolate M.bResetInterpolation M.AimLineToDesiredPosBlockedPct
            (rayLoop W M.CollisionPushOutDistance PP (SafeLocationOf W H M PP Root)
              M.AimLineToDesiredPosBlockedPct true))
        have hlt : (detectorResult W H M PP Root).DistBlockedPct.lt
            M.ReportPenetrationPercent = false := by
          unfold detectorResult
          rw [PreventCameraPenetration_fraction, hq, hM]
          simp only [UEFloat.lt, decide_eq_false_iff_not, not_lt]
          exact h0
        rw [hlt] at h
        refine ⟨h.2.symm, ?_⟩
        rw [← h.1]
        exact hM

/-- C18. With the default configuration, `ReportPenetrationPercent` equal to 0,
`OnCameraPenetratingTarget` is called on no collaborator, for any run of frames, any
scene and host in each frame and any state of the camera mode at the start of the run:
the stored fraction is clamped to at least 0 and the report test is a strict
less-than. -/
theorem C18_default_report_never_notifies (Frames : List (UWorld × UCameraHost))
    (M : UCameraMode_Fixed) (hM : M.ReportPenetrationPercent = .fin 0) :
    (UpdateFrames Frames M).2 = [] := by
  induction Frames generalizing M with
  | nil => rfl
  | cons F Rest ih =>
    obtain ⟨W, H⟩ := F
    unfold UpdateFrames
    cases hU : UpdateView W H M with
    | none => rfl
    | some R =>
      obtain ⟨N, L⟩ := R
      unfold UpdateView at hU
      simp only at hU
      have key := fun hm => UpdatePreventPenetration_report_zero W H _ N L hm hU
      obtain ⟨hL, hN⟩ := key hM
      simp only
      rw [hL, ih N hN]
      rfl

/-- C18 on two frames from the constructed camera mode, the first against the wall nearer
than the push-out distance, the second in the empty scene. -/
theorem C18_default_report_witness :
    (UpdateFrames [(nearWallScene, demoHost (some 1) queryKeeps),
      (emptyScene, demoHost (some 1) queryKeeps)]
      (demoMode desiredLoc (.fin 0) (.fin 0))).2 = [] :=
  C18_default_report_never_notifies _ _ rfl


/-! ## Hit classification, detector outputs and ignore set on the rays of the source -/

/-- C6, as stated, fails: a camera blocking volume without the tag is hit three units
behind the view target, so the dot product is negative and the hit is blocking, yet with a
push-out distance of 2 the raw fraction is 1.0 before and after the ray: the hit does not
reduce it. -/
theorem C6_blocking_volume_counterexample :
    (raySweep (volumeScene (-3)) (.fin 2) 1 originLoc (.fin 1) 0).1 = true ∧
    (raySweep (volumeScene (-3)) (.fin 2) 1 originLoc (.fin 1) 0).2.Actor = some 9 ∧
    (volumeScene (-3)).IsCameraBlockingVolume 9 = true ∧
    (volumeScene (-3)).ActorHasTag 9 NAME_IgnoreCameraCollision = false ∧
    (DotHitDirection (volumeScene (-3)) 1
      (raySweep (volumeScene (-3)) (.fin 2) 1 originLoc (.fin 1) 0).2).le (.fin 0) = true ∧
    bIgnoreHit (volumeScene (-3)) 1 9
      (raySweep (volumeScene (-3)) (.fin 2) 1 originLoc (.fin 1) 0).2 = false ∧
    (rayLoopUpTo (volumeScene (-3)) (.fin 2) 1 originLoc (.fin 1) 0).DistBlockedPctThisFrame
      = .fin 1 ∧
    (rayLoopUpTo (volumeScene (-3)) (.fin 2) 1 originLoc (.fin 1) 1).DistBlockedPctThisFrame
      = .fin 1 := by
  refine ⟨?_, ?_, ?_, ?_, ?_, ?_, ?_, ?_⟩
  · simp [raySweep, volumeScene, sceneWorld, hitAt]
  · simp [raySweep, volumeScene, sceneWorld, hitAt]
  · simp [volumeScene, sceneWorld]
  · simp [volumeScene, sceneWorld, NAME_IgnoreCameraCollision]
  · norm_num [DotHitDirection, raySweep, volumeScene, sceneWorld, hitAt, axisNormal2D,
      axisSign, FVector.ofRat, FVector.sub, FVector.DotProduct, UEFloat.sub, UEFloat.add,
      UEFloat.neg, UEFloat.mul, UEFloat.le]
  · norm_num [bIgnoreHit, DotHitDirection, raySweep, volumeScene, sceneWorld, hitAt,
      axisNormal2D, axisSign, FVector.ofRat, FVector.sub, FVector.DotProduct, UEFloat.sub,
      UEFloat.add, UEFloat.neg, UEFloat.mul, UEFloat.gt, UEFloat.lt,
      NAME_IgnoreCameraCollision]
  · simp [rayLoopUpTo, rayLoopInit]
  · norm_num [rayLoopUpTo, List.range_succ, rayLoopInit, rayStep, sweepRay, recordRay,
      bIgnoreHit, DotHitDirection, volumeScene, sceneWorld, hitAt, NewBlockPct,
      axisNormal2D, axisSign, axisSize, originLoc, FVector.ofRat, FVector.sub,
      FVector.DotProduct, UEFloat.sub, UEFloat.add, UEFloat.neg, UEFloat.mul, UEFloat.div,
      UEFloat.gt, UEFloat.lt, FMath.Min, NAME_IgnoreCameraCollision]

/-- C6, amended. A hit on a camera blocking volume that does not carry the tag
`IgnoreCameraCollision`: when the dot product of the view target's ground-plane forward
direction with the ground-plane direction to the hit is strictly positive, the hit leaves
the frame's raw fraction as it was and the actor is in the ignore set of every later
sweep; when the dot product is zero or negative, the same hit is blocking, the ignore set
stays as it was and the fraction of the hit is folded into the raw fraction by `Min`: on
a ray of length zero, as every ray of the source is, the raw fraction becomes minus
infinity when the hit is nearer to `SafeLoc` than `CollisionPushOutDistance` and stays as
it was when the hit is farther. -/
theorem C6_blocking_volume_by_facing (W : UWorld) (P : UEFloat) (VT : AActor)
    (S : FVector) (D : UEFloat) (k : ℕ) (A : AActor)
    (hhit : (raySweep W P VT S D k).1 = true)
    (hactor : (raySweep W P VT S D k).2.Actor = some A)
    (hvol : W.IsCameraBlockingVolume A = true)
    (htag : W.ActorHasTag A NAME_IgnoreCameraCollision = false) :
    ((DotHitDirection W VT (raySweep W P VT S D k).2).gt (.fin 0) = true →
      (rayLoopUpTo W P VT S D (k + 1)).DistBlockedPctThisFrame =
          (rayLoopUpTo W P VT S D k).DistBlockedPctThisFrame ∧
        (rayLoopUpTo W P VT S D (k + 1)).SphereParams =
          (rayLoopUpTo W P VT S D k).SphereParams ++ [A] ∧
        ∀ j, k < j → A ∈ (rayLoopUpTo W P VT S D j).SphereParams) ∧
    ((DotHitDirection W VT (raySweep W P VT S D k).2).le (.fin 0) = true →
      bIgnoreHit W VT A (raySweep W P VT S D k).2 = false ∧
        (rayLoopUpTo W P VT S D (k + 1)).SphereParams =
          (rayLoopUpTo W P VT S D k).SphereParams ∧
        (rayLoopUpTo W P VT S D (k + 1)).DistBlockedPctThisFrame =
          FMath.Min (NewBlockPct W P S S (raySweep W P VT S D k).2)
            (rayLoopUpTo W P VT S D k).DistBlockedPctThisFrame ∧
        (W.Size (S.sub S) = .fin 0 →
          ((W.Size ((raySweep W P VT S D k).2.Location.sub S)).lt P = true →
            (rayLoopUpTo W P VT S D (k + 1)).DistBlockedPctThisFrame = .negInf) ∧
          (P.lt (W.Size ((raySweep W P VT S D k).2.Location.sub S)) = true →
            (rayLoopUpTo W P VT S D (k + 1)).DistBlockedPctThisFrame =
              (rayLoopUpTo W P VT S D k).DistBlockedPctThisFrame))) := by
  unfold raySweep at hhit hactor ⊢
  constructor
  · intro hdot
    have hign : bIgnoreHit W VT A (W.SweepSingleByChannel k S S
        (rayLoopUpTo W P VT S D k).SphereParams).2 = true := by
      simp [bIgnoreHit, htag, hvol, hdot]
    have hs := sweepRay_ignored W P VT S _ k A hhit hactor hign
    have hp : (rayLoopUpTo W P VT S D (k + 1)).SphereParams =
        (rayLoopUpTo W P VT S D k).SphereParams ++ [A] := by
      rw [rayLoopUpTo_succ, rayStep_params, hs]
    refine ⟨?_, hp, ?_⟩
    · rw [rayLoopUpTo_succ, rayStep_frame, hs]
    · intro j hj
      apply rayLoopUpTo_params_mono W P VT S D A (k + 1) _ j hj
      rw [hp]
      simp
  · intro hdot
    have hign : bIgnoreHit W VT A (W.SweepSingleByChannel k S S
        (rayLoopUpTo W P VT S D k).SphereParams).2 = false := by
      simp [bIgnoreHit, htag, hvol, UEFloat.not_gt_of_le _ _ hdot]
    have hs := sweepRay_blocking W P VT S _ k A hhit hactor hign
    have hf : (rayLoopUpTo W P VT S D (k + 1)).DistBlockedPctThisFrame =
        FMath.Min (NewBlockPct W P S S (W.SweepSingleByChannel k S S
            (rayLoopUpTo W P VT S D k).SphereParams).2)
          (rayLoopUpTo W P VT S D k).DistBlockedPctThisFrame := by
      rw [rayLoopUpTo_succ, rayStep_frame, hs]
    refine ⟨hign, ?_, hf, ?_⟩
    · rw [rayLoopUpTo_succ, rayStep_params, hs]
    · intro hlen
      constructor
      · intro hnear
        rw [hf]
        unfold NewBlockPct
        rw [hlen, UEFloat.sub_div_zero_of_lt _ _ hnear]
        rcases rayLoopUpTo_frame_cases W P VT S D hlen k with h1 | h1 <;> rw [h1] <;>
          simp [FMath.Min, UEFloat.lt]
      · intro hfar
        rw [hf]
        unfold NewBlockPct
        rw [hlen, UEFloat.sub_div_zero_of_gt _ _ hfar]
        simp [FMath.Min, UEFloat.posInf_lt]

/-- The amended C6 on a camera blocking volume (actor 9) hit one unit in front of the view
target, which faces along the X axis, and on the same volume hit one unit behind it with
a push-out distance of 2: in front the actor joins the ignore set, behind the raw
fraction becomes minus infinity. -/
theorem C6_blocking_volume_witness :
    (rayLoopUpTo (volumeScene 1) (.fin 2) 1 originLoc (.fin 1) (0 + 1)).SphereParams =
      (rayLoopUpTo (volumeScene 1) (.fin 2) 1 originLoc (.fin 1) 0).SphereParams ++ [9] ∧
    (rayLoopUpTo (volumeScene (-1)) (.fin 2) 1 originLoc (.fin 1)
        (0 + 1)).DistBlockedPctThisFrame = .negInf :=
  ⟨((C6_blocking_volume_by_facing (volumeScene 1) (.fin 2) 1 originLoc (.fin 1) 0 9
      (by simp [raySweep, volumeScene, sceneWorld, hitAt])
      (by simp [raySweep, volumeScene, sceneWorld, hitAt])
      (by simp [volumeScene, sceneWorld])
      (by simp [volumeScene, sceneWorld, NAME_IgnoreCameraCollision])).1
      (by norm_num [DotHitDirection, raySweep, volumeScene, sceneWorld, hitAt, axisNormal2D,
        axisSign, FVector.ofRat, FVector.sub, FVector.DotProduct, UEFloat.sub, UEFloat.add,
        UEFloat.neg, UEFloat.mul, UEFloat.gt, UEFloat.lt])).2.1,
    (((C6_blocking_volume_by_facing (volumeScene (-1)) (.fin 2) 1 originLoc (.fin 1) 0 9
      (by simp [raySweep, volumeScene, sceneWorld, hitAt])
      (by simp [raySweep, volumeScene, sceneWorld, hitAt])
      (by simp [volumeScene, sceneWorld])
      (by simp [volumeScene, sceneWorld, NAME_IgnoreCameraCollision])).2
      (by norm_num [DotHitDirection, raySweep, volumeScene, sceneWorld, hitAt, axisNormal2D,
        axisSign, FVector.ofRat, FVector.sub, FVector.DotProduct, UEFloat.sub, UEFloat.add,
        UEFloat.neg, UEFloat.mul, UEFloat.le])).2.2.2
      (by norm_num [volumeScene, sceneWorld, axisSize, originLoc, FVector.ofRat,
        FVector.sub, UEFloat.sub, UEFloat.add, UEFloat.neg])).1
      (by norm_num [raySweep, volumeScene, sceneWorld, hitAt, axisSize, originLoc,
        FVector.ofRat, FVector.sub, UEFloat.sub, UEFloat.add, UEFloat.neg, UEFloat.lt])⟩

/-- A ray none of whose hits is ignored leaves the ignore set as it was. -/
theorem rayLoopUpTo_params_of_not_ignored (W : UWorld) (P : UEFloat) (VT : AActor)
    (S : FVector) (D : UEFloat) (k : ℕ)
    (h : ignoredActorOf W P VT S D k = none) :
    (rayLoopUpTo W P VT S D (k + 1)).SphereParams =
      (rayLoopUpTo W P VT S D k).SphereParams := by
  rw [rayLoopUpTo_succ, rayStep_params, sweepRay_params_ignored, h]
  simp

/-- The actor that the code adds to the ignore set on a ray is the actor of an ignored hit
in the words of the specification. -/
theorem ignoredActorOf_eq_spec (W : UWorld) (P : UEFloat) (VT : AActor) (S : FVector)
    (D : UEFloat) (k : ℕ) :
    ignoredActorOf W P VT S D k = specIgnoredHitActor W VT (raySweep W P VT S D k) := by
  unfold ignoredActorOf specIgnoredHitActor
  split
  · rename_i HitActor h1 h2
    unfold bIgnoreHit
    cases htag : W.ActorHasTag HitActor NAME_IgnoreCameraCollision <;>
      cases hvol : W.IsCameraBlockingVolume HitActor <;>
      cases hdot : (DotHitDirection W VT (raySweep W P VT S D k).2).gt (.fin 0) <;>
      simp
  · rfl

/-- On a scene that answers identical sweeps identically, two rays that are swept with the
same ignore set ignore the same actor. -/
theorem ignoredActorOf_congr (W : UWorld) (P : UEFloat) (VT : AActor) (S : FVector)
    (D : UEFloat) (i j : ℕ) (hdet : AnswersAlike W)
    (h : (rayLoopUpTo W P VT S D i).SphereParams = (rayLoopUpTo W P VT S D j).SphereParams) :
    ignoredActorOf W P VT S D i = ignoredActorOf W P VT S D j := by
  unfold ignoredActorOf raySweep
  rw [h]
  simp only [hdet i j]

/-- On a scene that answers identical sweeps identically, the ignore set stays as it is
from the first ray on that ignores no hit. -/
theorem rayLoopUpTo_params_frozen (W : UWorld) (P : UEFloat) (VT : AActor) (S : FVector)
    (D : UEFloat) (k : ℕ) (hdet : AnswersAlike W)
    (h : ignoredActorOf W P VT S D k = none) (n : ℕ) :
    (rayLoopUpTo W P VT S D (k + n)).SphereParams =
      (rayLoopUpTo W P VT S D k).SphereParams := by
  induction n with
  | zero => rfl
  | succ n ih =>
    have hn : ignoredActorOf W P VT S D (k + n) = none := by
      rw [ignoredActorOf_congr W P VT S D (k + n) k hdet ih]
      exact h
    have hstep := rayLoopUpTo_params_of_not_ignored W P VT S D (k + n) hn
    rw [← Nat.add_assoc, hstep, ih]

/-- The ignore set after `k` rays: the view target and then the actors of the ignored hits,
in the words of the specification, of rays 0 to `k`-1. -/
theorem rayLoopUpTo_params_spec (W : UWorld) (P : UEFloat) (VT : AActor) (S : FVector)
    (D : UEFloat) (k : ℕ) :
    (rayLoopUpTo W P VT S D k).SphereParams =
      VT :: (List.range k).filterMap
        (fun j => specIgnoredHitActor W VT (raySweep W P VT S D j)) := by
  induction k with
  | zero => simp [rayLoopUpTo_zero, rayLoopInit]
  | succ k ih =>
    rw [rayLoopUpTo_succ, rayStep_params, sweepRay_params_ignored, ih, List.range_succ,
      List.filterMap_append, ignoredActorOf_eq_spec]
    cases h : specIgnoredHitActor W VT (raySweep W P VT S D k) <;>
      simp [List.filterMap_cons, h]

/-- The ignore set of an earlier ray is an initial part of that of every later ray. -/
theorem rayLoopUpTo_params_initial (W : UWorld) (P : UEFloat) (VT : AActor) (S : FVector)
    (D : UEFloat) (j k : ℕ) (hjk : j ≤ k) :
    (rayLoopUpTo W P VT S D j).SphereParams <+: (rayLoopUpTo W P VT S D k).SphereParams := by
  induction k with
  | zero =>
    have hj : j = 0 := Nat.le_zero.mp hjk
    rw [hj]
  | succ k ih =>
    rcases Nat.lt_or_ge j (k + 1) with hlt | hge
    · have hpre := ih (Nat.lt_succ_iff.mp hlt)
      rw [rayLoopUpTo_succ, rayStep_params, sweepRay_params_ignored]
      exact hpre.trans (List.prefix_append _ _)
    · have hj : j = k + 1 := le_antisymm hjk hge
      rw [hj]

/-- A hit on an actor without the tag that is no camera blocking volume hit in front is no
ignored hit in the words of the specification. -/
theorem specIgnoredHitActor_blocking (W : UWorld) (VT : AActor) (Sweep : Bool × FHitResult)
    (A : AActor) (hactor : Sweep.2.Actor = some A)
    (htag : W.ActorHasTag A NAME_IgnoreCameraCollision = false)
    (hfront : W.IsCameraBlockingVolume A = true →
      (DotHitDirection W VT Sweep.2).gt (.fin 0) = false) :
    specIgnoredHitActor W VT Sweep = none := by
  unfold specIgnoredHitActor
  split
  · rename_i HitActor h1 h2
    rw [hactor] at h2
    have hA : A = HitActor := Option.some.inj h2
    subst hA
    cases hvol : W.IsCameraBlockingVolume A
    · simp [htag, hvol]
    · simp [htag, hvol, hfront hvol]
  · rfl

/-- C16. Ignore-set accumulation within one call: the ignore set starts as the
`ViewTarget` alone and the sweep of ray `k` adds to it the actor it hits exactly when that
actor carries the tag `IgnoreCameraCollision` or is a camera blocking volume for which
the dot product of the view target's ground-plane forward direction with the ground-plane
direction to the hit is strictly positive; so the ignore set handed to the sweep of ray
`k` is the `ViewTarget` followed by the actors of those hits of rays 0 to `k`-1, in ray
order; the ignore set of an earlier ray is an initial part of that of every later ray, so
it never shrinks; a hit on an actor without the tag that is no camera blocking volume
hit in front leaves the ignore set as it was; and on a scene that answers identical sweeps
identically and reports no hit on an actor it was told to ignore, the actor of such a
blocking hit is in the ignore set of no ray of the call, before or after. -/
theorem C16_ignore_set_accumulation (W : UWorld) (P : UEFloat) (VT : AActor)
    (S : FVector) (D : UEFloat) :
    (rayLoopUpTo W P VT S D 0).SphereParams = [VT] ∧
    (∀ k, (rayLoopUpTo W P VT S D (k + 1)).SphereParams =
      (rayLoopUpTo W P VT S D k).SphereParams ++
        (specIgnoredHitActor W VT
          (W.SweepSingleByChannel k S S (rayLoopUpTo W P VT S D k).SphereParams)).toList) ∧
    (∀ k, (rayLoopUpTo W P VT S D k).SphereParams =
      VT :: (List.range k).filterMap
        (fun j => specIgnoredHitActor W VT (raySweep W P VT S D j))) ∧
    (∀ k, raySweep W P VT S D k =
      W.SweepSingleByChannel k S S
        (VT :: (List.range k).filterMap
          (fun j => specIgnoredHitActor W VT (raySweep W P VT S D j)))) ∧
    (∀ j k, j ≤ k →
      (rayLoopUpTo W P VT S D j).SphereParams <+: (rayLoopUpTo W P VT S D k).SphereParams) ∧
    (∀ k A, (raySweep W P VT S D k).1 = true → (raySweep W P VT S D k).2.Actor = some A →
      W.ActorHasTag A NAME_IgnoreCameraCollision = false →
      (W.IsCameraBlockingVolume A = true →
        (DotHitDirection W VT (raySweep W P VT S D k).2).gt (.fin 0) = false) →
      (rayLoopUpTo W P VT S D (k + 1)).SphereParams =
        (rayLoopUpTo W P VT S D k).SphereParams) ∧
    (AnswersAlike W → HonoursIgnoredActors W →
      ∀ k A, (raySweep W P VT S D k).1 = true → (raySweep W P VT S D k).2.Actor = some A →
        W.ActorHasTag A NAME_IgnoreCameraCollision = false →
        (W.IsCameraBlockingVolume A = true →
          (DotHitDirection W VT (raySweep W P VT S D k).2).gt (.fin 0) = false) →
        ∀ j, A ∉ (rayLoopUpTo W P VT S D j).SphereParams) := by
  have hnone : ∀ k A, (raySweep W P VT S D k).2.Actor = some A →
      W.ActorHasTag A NAME_IgnoreCameraCollision = false →
      (W.IsCameraBlockingVolume A = true →
        (DotHitDirection W VT (raySweep W P VT S D k).2).gt (.fin 0) = false) →
      ignoredActorOf W P VT S D k = none := by
    intro k A hactor htag hfront
    rw [ignoredActorOf_eq_spec]
    exact specIgnoredHitActor_blocking W VT _ A hactor htag hfront
  refine ⟨?_, ?_, rayLoopUpTo_params_spec W P VT S D, ?_,
    rayLoopUpTo_params_initial W P VT S D, ?_, ?_⟩
  · simp [rayLoopUpTo_zero, rayLoopInit]
  · intro k
    rw [rayLoopUpTo_succ, rayStep_params, sweepRay_params_ignored, ignoredActorOf_eq_spec]
    rfl
  · intro k
    rw [← rayLoopUpTo_params_spec W P VT S D k]
    rfl
  · intro k A _ hactor htag hfront
    exact rayLoopUpTo_params_of_not_ignored W P VT S D k (hnone k A hactor htag hfront)
  · intro hdet hhon k A hhit hactor htag hfront j hmem
    have hk : A ∉ (rayLoopUpTo W P VT S D k).SphereParams := by
      unfold raySweep at hhit hactor
      exact hhon k S S _ A hhit hactor
    rcases Nat.le_total j k with hjk | hkj
    · exact hk ((rayLoopUpTo_params_initial W P VT S D j k hjk).subset hmem)
    · obtain ⟨n, hn⟩ := Nat.exists_eq_add_of_le hkj
      rw [hn, rayLoopUpTo_params_frozen W P VT S D k hdet
        (hnone k A hactor htag hfront) n] at hmem
      exact hk hmem

/-- C16 on a camera blocking volume (actor 9) in front of the view target and a wall
(actor 5) behind the volume: ray 0 hits the volume and ignores it, ray 1 hits the wall,
which is blocking, so the ignore set after ray 1 is still the view target and the volume,
and the wall is not in the ignore set after the four rays. -/
theorem C16_ignore_set_witness :
    AnswersAlike layeredScene ∧ HonoursIgnoredActors layeredScene ∧
    (rayLoopUpTo layeredScene (.fin 2) 1 originLoc (.fin 1) 2).SphereParams = [1, 9] ∧
    5 ∉ (rayLoopUpTo layeredScene (.fin 2) 1 originLoc (.fin 1) 4).SphereParams := by
  have hdet : AnswersAlike layeredScene := by
    intro i j Start End Ignored
    simp only [layeredScene]
  have hhon : HonoursIgnoredActors layeredScene := by
    intro i Start End Ignored A h1 h2
    unfold layeredScene at h1 h2
    simp only at h1 h2
    split_ifs at h1 h2 with h9 h5
    · simp [noHit] at h1
    · simp only [hitAt, Option.some.injEq] at h2
      rw [← h2]
      exact h5
    · simp only [hitAt, Option.some.injEq] at h2
      rw [← h2]
      exact h9
  have h1 : (rayLoopUpTo layeredScene (.fin 2) 1 originLoc (.fin 1) 1).SphereParams
      = [1, 9] := by
    norm_num [rayLoopUpTo, List.range_succ, rayLoopInit, rayStep, sweepRay, recordRay,
      bIgnoreHit, DotHitDirection, layeredScene, hitAt, noHit, NewBlockPct,
      axisNormal2D, axisSign, axisSize, originLoc, FVector.ofRat, FVector.sub,
      FVector.DotProduct, UEFloat.sub, UEFloat.add, UEFloat.neg, UEFloat.mul, UEFloat.div,
      UEFloat.gt, UEFloat.lt, FMath.Min, NAME_IgnoreCameraCollision]
  have hsweep : raySweep layeredScene (.fin 2) 1 originLoc (.fin 1) 1 = hitAt 5 1 := by
    unfold raySweep
    rw [h1]
    simp [layeredScene]
  have hhit : (raySweep layeredScene (.fin 2) 1 originLoc (.fin 1) 1).1 = true := by
    rw [hsweep]
    simp [hitAt]
  have hactor : (raySweep layeredScene (.fin 2) 1 originLoc (.fin 1) 1).2.Actor = some 5 := by
    rw [hsweep]
    simp [hitAt]
  have htag : layeredScene.ActorHasTag 5 NAME_IgnoreCameraCollision = false := by
    simp [layeredScene]
  have hvol : layeredScene.IsCameraBlockingVolume 5 = false := by
    simp [layeredScene]
  have hthm := C16_ignore_set_accumulation layeredScene (.fin 2) 1 originLoc (.fin 1)
  have hstep := hthm.2.2.2.2.2.1 1 5 hhit hactor htag
    (fun h => absurd (hvol.symm.trans h) (by simp))
  have hout := hthm.2.2.2.2.2.2 hdet hhon 1 5 hhit hactor htag
    (fun h => absurd (hvol.symm.trans h) (by simp)) 4
  exact ⟨hdet, hhon, hstep.trans h1, hout⟩

end ModalCamera
